import Mathlib

/-!
Verification of the cloudbridge provider-service layer (Azure and OpenStack
backends): a shallow embedding of the entity services (get / list / find /
create / delete), the Azure launch resolver and block-device processing, and
the composite subnet identifier format, together with theorems about the
documented contracts.

Provider backends are modelled as explicit state records; every provider
mutation call is recorded in a trace.  Fallible code returns `Except`.
-/

namespace CloudBridge

/-- Errors that provider SDK calls or the service layer can raise.
`cloudError` is msrestazure CloudError (raised by the Azure client when a
resource is not available); `azureException` is azure.common.AzureException;
`novaNotFound` / `cinderNotFound` are the OpenStack client not-found errors;
`conflict` is the OpenStack client conflict error; `otherError` stands for any
other provider failure (throttling, permission denial); `generic` models a
plain Python `raise Exception(...)`; `invalidConfiguration` is
InvalidConfigurationException; `attributeError` / `indexError` model Python
runtime errors from using `None` or a missing list index. -/
inductive Err
  | cloudError (msg : String)
  | azureException (msg : String)
  | novaNotFound
  | cinderNotFound
  | conflict (msg : String)
  | otherError (msg : String)
  | generic (msg : String)
  | invalidConfiguration (msg : String)
  | attributeError
  | indexError
  deriving DecidableEq, Repr

deriving instance DecidableEq for Except

/-- Python `str(bool)`. -/
def pyStr (b : Bool) : String := if b then "True" else "False"

/-- Python dict update on an association list: replace the value at the key if
present, otherwise append the binding. -/
def tagUpdate (tags : List (String × String)) (k v : String) :
    List (String × String) :=
  if tags.any (fun t => t.1 = k) then
    tags.map (fun t => if t.1 = k then (k, v) else t)
  else
    tags ++ [(k, v)]

/-- Python dict lookup `tags.get(k)` on an association list. -/
def tagGet (tags : List (String × String)) (k : String) : Option String :=
  (tags.find? (fun t => t.1 = k)).map (·.2)

/-! ## The composite subnet identifier

`AzureSubnetService.get` and `AzureSubnetService.delete` parse a composite
subnet identifier with Python's `subnet_id.split('|$|')`.  `splitDelim` is
that split, specialised to the fixed delimiter `|$|`: scan left to right and
cut at each non-overlapping occurrence of the three characters. -/

/-- Python `s.split('|$|')` on the character list of `s`. -/
def splitDelim : List Char → List (List Char)
  | [] => [[]]
  | [c] => [[c]]
  | [c, d] => [[c, d]]
  | c :: d :: e :: rest =>
    if c = '|' ∧ d = '$' ∧ e = '|' then
      [] :: splitDelim rest
    else
      match splitDelim (d :: e :: rest) with
      | [] => [[c]]
      | p :: ps => (c :: p) :: ps

/-- Whether the delimiter `|$|` occurs in a character list. -/
def containsDelim : List Char → Bool
  | [] => false
  | [_] => false
  | [_, _] => false
  | c :: d :: e :: rest =>
    (c = '|' ∧ d = '$' ∧ e = '|' : Bool) || containsDelim (d :: e :: rest)

/-- Join of the composite subnet identifier.
Modelled from the spec: the `AzureSubnet` resource wrapper (not part of the
sources at hand) builds its `id` as "a string key built by joining the parent
network identifier and the subnet's own identifier with a fixed, reserved
delimiter sequence", which `get`/`delete` split on `'|$|'`. -/
def joinSubnetId (net sub : String) : String := net ++ "|$|" ++ sub

/-- Whether a character list ends with the two characters `|` `$` — the
delimiter prefix that can merge with the join point and create an earlier
occurrence of `|$|`. -/
def endsPD : List Char → Bool
  | [] => false
  | [_] => false
  | [c, d] => (c = '|' ∧ d = '$' : Bool)
  | _ :: c :: d :: rest => endsPD (c :: d :: rest)


/-! ## The Azure backend model

The Azure client (`self.provider.azure_client`) is an opaque RPC wrapper over
the Azure SDK.  It is modelled as an explicit state of provider-native
records.  The in-source comments document that it raises `CloudError` when a
resource is not available; a separate fault list models backend failures that
are not not-found (throttling, permission denial). -/

/-- A security-group rule (protocol and port), as in the spec scenario
"A allows TCP/22, B allows TCP/80". -/
structure Rule where
  protocol : String
  port : Nat
  deriving DecidableEq, Repr

/-- A provider-native Azure network security group. -/
structure AzSG where
  name : String
  resourceId : String
  rules : List Rule
  tags : List (String × String)
  deriving DecidableEq, Repr

/-- A provider-native Azure managed disk. -/
structure AzDisk where
  name : String
  tags : List (String × String)
  size : Option Nat
  location : String
  deriving DecidableEq, Repr

/-- A provider-native Azure snapshot. -/
structure AzSnapRes where
  name : String
  tags : List (String × String)
  size : Option Nat
  deriving DecidableEq, Repr

/-- A provider-native Azure subnet, keyed by parent network name and its own
name.  `zone` is the availability-zone affinity the resource layer reports
for it. -/
structure AzNativeSubnet where
  network : String
  name : String
  zone : Option String
  deriving DecidableEq, Repr

/-- A machine image as the services see it (`id` for lookup,
`resource_id` for launch payloads). -/
structure AzImage where
  id : String
  resourceId : String
  deriving DecidableEq, Repr

/-- A key pair record as the Azure service sees it (`name`, the stored public
key `_key_pair.Key`, and the private-key `material` set only on create). -/
structure AzKeyPair where
  name : String
  key : String
  material : Option String
  deriving DecidableEq, Repr

/-- The data-disk entry built by `_process_block_device_mappings`. -/
structure AzDataDisk where
  lun : Nat
  name : String
  createOption : String
  managedDiskId : String
  deriving DecidableEq, Repr

/-- A provider-native Azure virtual machine, holding the fields the create
payload carries. -/
structure AzVm where
  name : String
  location : String
  tags : List (String × String)
  instanceSize : String
  imageRid : String
  keyData : String
  userData : Option String
  dataDisks : Option (List AzDataDisk)
  rootDiskSize : Option Nat
  deriving DecidableEq, Repr

/-- The Azure backend state.  `diskFaults` lists disk ids whose fetch fails
with a non-not-found provider error. -/
structure AzureState where
  networks : List String
  subnets : List AzNativeSubnet
  sgs : List AzSG
  disks : List AzDisk
  snapshots : List AzSnapRes
  keyPairs : List (String × String)
  images : List AzImage
  vms : List AzVm
  diskFaults : List String
  fresh : Nat
  deriving DecidableEq, Repr

/-- Provider mutation calls made against the Azure backend (reads are not
recorded: the trace is exactly the "provider mutation calls" of the spec). -/
inductive AzCall
  | createSecurityGroup (name : String)
  | sgAddRule (target srcId : String)
  | deleteSecurityGroup (id : String)
  | updateDiskTags (id : String)
  | createEmptyDisk (name : String)
  | createSnapshotDisk (name : String)
  | createSnapshot (name : String)
  | createPublicKey (name : String)
  | createNetwork (name : String)
  | createSubnet (net sub : String)
  | deleteSubnet (net sub : String)
  | createNic (name subnetId : String) (sgId : Option String)
  | createVm (name location : String) (nameTag : Option String)
  deriving DecidableEq, Repr

/-- The Azure service monad: a state-and-trace transformer with Python
exceptions as `Except`.  A raised exception keeps the state mutations and the
provider calls made before the raise. -/
def AzM (α : Type) : Type :=
  AzureState → Except Err α × AzureState × List AzCall

instance : Monad AzM where
  pure a := fun st => (.ok a, st, [])
  bind m f := fun st =>
    match m st with
    | (.ok a, st1, tr1) =>
      match f a st1 with
      | (r, st2, tr2) => (r, st2, tr1 ++ tr2)
    | (.error e, st1, tr1) => (.error e, st1, tr1)

/-- Is this provider call the virtual-machine creation? -/
def azCallIsCreateVm : AzCall → Bool
  | .createVm _ _ _ => true
  | _ => false

/-- Is this provider call the network-interface creation? -/
def azCallIsCreateNic : AzCall → Bool
  | .createNic _ _ _ => true
  | _ => false

/-- Is this provider call a security-group creation? -/
def azCallIsCreateSG : AzCall → Bool
  | .createSecurityGroup _ => true
  | _ => false

/-- Raise a Python exception. -/
def azThrow (e : Err) : AzM α := fun st => (.error e, st, [])

/-- Record a provider mutation call. -/
def azEmit (c : AzCall) : AzM Unit := fun st => (.ok (), st, [c])

/-- Read the backend state. -/
def azGetState : AzM AzureState := fun st => (.ok st, st, [])

/-- Apply a backend state change. -/
def azModify (f : AzureState → AzureState) : AzM Unit :=
  fun st => (.ok (), f st, [])

/-- One draw of `uuid.uuid4().hex[:6]`: the entropy source is the oracle `σ`,
consumed by a counter in the state. -/
def azFreshSuffix (σ : Nat → String) : AzM String :=
  fun st => (σ st.fresh, {st with fresh := st.fresh + 1}) |> fun p => (.ok p.1, p.2, [])

/-- Python `try: m except CloudError: h`: only `CloudError` is handled, other
exceptions propagate; side effects made before the raise persist. -/
def azCatchCloud (m : AzM α) (h : String → AzM α) : AzM α := fun st =>
  match m st with
  | (.error (Err.cloudError msg), st1, tr1) =>
    match h msg st1 with
    | (r, st2, tr2) => (r, st2, tr1 ++ tr2)
  | r => r

/-- The provider's configured region (`self.provider.region_name`). -/
def azureRegionName : String := "eastus"

/-- Backend-assigned resource URI of a security group. -/
def azMkSGResourceId (name : String) : String := "/nsg/" ++ name

/-- Backend-assigned resource URI of a managed disk. -/
def azMkDiskResourceId (name : String) : String := "/disks/" ++ name

/-- Backend-assigned resource URI of a snapshot. -/
def azMkSnapResourceId (name : String) : String := "/snapshots/" ++ name

/-- Backend-assigned resource URI of a subnet. -/
def azMkSubnetResourceId (net sub : String) : String :=
  "/net/" ++ net ++ "/subnets/" ++ sub

/-- An argument that may be a bare identifier string or an already resolved
resource object (the `isinstance` branching of the services). -/
inductive StrOr (α : Type)
  | str (s : String)
  | obj (o : α)
  deriving DecidableEq, Repr

/-! ### Azure security groups (`AzureSecurityGroupService`) -/

/-- `azure_client.get_security_group(sg_id)`: raises CloudError when the
group is not available (per the in-source comment). -/
def azClientGetSecurityGroup (sgId : String) : AzM AzSG := fun st =>
  match st.sgs.find? (fun g => g.name = sgId) with
  | some g => (.ok g, st, [])
  | none => (.error (.cloudError "security group not available"), st, [])

/-- `azure_client.create_security_group(name, parameters)`: a PUT that
replaces any group of the same name and returns the created group. -/
def azClientCreateSecurityGroup (name : String)
    (tags : List (String × String)) : AzM AzSG := fun st =>
  let g : AzSG := ⟨name, azMkSGResourceId name, [], tags⟩
  (.ok g, {st with sgs := g :: st.sgs.filter (fun x => x.name ≠ name)},
   [.createSecurityGroup name])

/-- `azure_client.delete_security_group(group_id)`: raises CloudError when
the group is not available (per the in-source comment). -/
def azClientDeleteSecurityGroup (sgId : String) : AzM Unit := fun st =>
  if st.sgs.any (fun g => g.name = sgId) then
    (.ok (), {st with sgs := st.sgs.filter (fun g => g.name ≠ sgId)},
     [.deleteSecurityGroup sgId])
  else
    (.error (.cloudError "security group not available"), st, [])

/-- `AzureSecurityGroupService.get`: wraps the client call, converting
CloudError to `None`. -/
def azureSecurityGroupGet (sgId : String) : AzM (Option AzSG) :=
  azCatchCloud
    (do let g ← azClientGetSecurityGroup sgId; pure (some g))
    (fun _ => pure none)

/-- `AzureSecurityGroupService.create(name, description)`: tags carry `Name`
and optionally `Description`. -/
def azureSecurityGroupCreate (name : String) (description : Option String) :
    AzM AzSG := do
  let tags := match description with
    | some d => [("Name", name), ("Description", d)]
    | none => [("Name", name)]
  azClientCreateSecurityGroup name tags

/-- `AzureSecurityGroupService.delete(group_id)`: returns True when the
client delete succeeded and False when the client raised CloudError. -/
def azureSecurityGroupDelete (groupId : String) : AzM Bool :=
  azCatchCloud
    (do azClientDeleteSecurityGroup groupId; pure true)
    (fun _ => pure false)

/-- `SecurityGroup.add_rule(src_group=sg)` with a resolved source group.
Modelled from the spec: the resource wrapper classes are not part of the
sources at hand; the spec says the merge group "imports rules from each
requested group", so the call appends every rule of the source group to the
target group's rule set in the backend. -/
def azureSGAddRule (target : String) (src : AzSG) : AzM Unit := fun st =>
  let upd := fun (g : AzSG) =>
    if g.name = target then {g with rules := g.rules ++ src.rules} else g
  (.ok (), {st with sgs := st.sgs.map upd}, [.sgAddRule target src.name])

/-- `SecurityGroup.add_rule(src_group=sg)` where `sg` may also be a bare id
string (the launch resolver passes through whatever the caller supplied).
Modelled from the spec: an id is resolved to its group before importing its
rules. -/
def azureSGAddRuleRef (target : String) (src : StrOr AzSG) : AzM Unit :=
  match src with
  | .obj g => azureSGAddRule target g
  | .str s => do
    let g ← azureSecurityGroupGet s
    match g with
    | some gg => azureSGAddRule target gg
    | none => azThrow .attributeError

/-! ### Azure key pairs (`AzureKeyPairService`) -/

/-- `azure_client.get_public_key(name)`: a table-storage query returning the
entity or nothing. -/
def azClientGetPublicKey (name : String) : AzM (Option (String × String)) :=
  fun st => (.ok (st.keyPairs.find? (fun kp => kp.1 = name)), st, [])

/-- `AzureKeyPairService.get`: wraps the entity when found, else `None`. -/
def azureKeyPairGet (name : String) : AzM (Option AzKeyPair) := do
  let kp ← azClientGetPublicKey name
  match kp with
  | some p => pure (some ⟨p.1, p.2, none⟩)
  | none => pure none

/-- `azure_client.create_public_key(entity)`: inserts the key row. -/
def azClientCreatePublicKey (name pub : String) : AzM Unit := fun st =>
  (.ok (), {st with keyPairs := st.keyPairs ++ [(name, pub)]},
   [.createPublicKey name])

/-- `AzureKeyPairService.create(name)`: raises when a key pair with the name
already exists, otherwise stores the generated public key and returns the
pair with its private-key material.  `keyGen` is the entropy source standing
for `azure_helpers.gen_key_pair()` (private key, public key). -/
def azureKeyPairCreate (keyGen : String × String) (name : String) :
    AzM AzKeyPair := do
  let kp ← azureKeyPairGet name
  match kp with
  | some _ => azThrow (.generic ("Keypair already exists with name " ++ name))
  | none => do
    azClientCreatePublicKey name keyGen.2
    let kp2 ← azureKeyPairGet name
    match kp2 with
    | some k => pure {k with material := some keyGen.1}
    | none => azThrow .attributeError

/-! ### Azure volumes and snapshots (`AzureVolumeService`, `AzureSnapshotService`) -/

/-- The cloudbridge `AzureVolume` view of a native disk: `id` is the native
name, `resource_id` the backend URI, with tag and size getters. -/
structure AzVolume where
  id : String
  resourceId : String
  tags : List (String × String)
  size : Option Nat
  deriving DecidableEq, Repr

/-- Wrap a native disk as an `AzureVolume`. -/
def azWrapDisk (d : AzDisk) : AzVolume :=
  ⟨d.name, azMkDiskResourceId d.name, d.tags, d.size⟩

/-- The cloudbridge `AzureSnapshot` view of a native snapshot. -/
structure AzSnapshot where
  id : String
  resourceId : String
  tags : List (String × String)
  size : Option Nat
  deriving DecidableEq, Repr

/-- Wrap a native snapshot as an `AzureSnapshot`. -/
def azWrapSnap (s : AzSnapRes) : AzSnapshot :=
  ⟨s.name, azMkSnapResourceId s.name, s.tags, s.size⟩

/-- `azure_client.get_disk(id)`: raises CloudError when the disk is not
available (per the in-source comment); ids in `diskFaults` fail with another
provider error instead. -/
def azClientGetDisk (id : String) : AzM AzDisk := fun st =>
  if st.diskFaults.contains id then
    (.error (.otherError "provider failure"), st, [])
  else
    match st.disks.find? (fun d => d.name = id) with
    | some d => (.ok d, st, [])
    | none => (.error (.cloudError "disk not available"), st, [])

/-- `azure_client.create_empty_disk(name, params)`. -/
def azClientCreateEmptyDisk (name : String) (tags : List (String × String))
    (size : Option Nat) (location : String) : AzM Unit := fun st =>
  let d : AzDisk := ⟨name, tags, size, location⟩
  (.ok (), {st with disks := d :: st.disks.filter (fun x => x.name ≠ name)},
   [.createEmptyDisk name])

/-- `azure_client.create_snapshot_disk(name, params)`: a copy from the
snapshot source URI; the disk takes the snapshot's size. -/
def azClientCreateSnapshotDisk (name : String) (tags : List (String × String))
    (size : Option Nat) (location : String) : AzM Unit := fun st =>
  let d : AzDisk := ⟨name, tags, size, location⟩
  (.ok (), {st with disks := d :: st.disks.filter (fun x => x.name ≠ name)},
   [.createSnapshotDisk name])

/-- `azure_client.update_disk_tags(id, tags)`: raises CloudError when the
disk is not available. -/
def azClientUpdateDiskTags (id : String) (tags : List (String × String)) :
    AzM Unit := fun st =>
  if st.disks.any (fun d => d.name = id) then
    let upd := fun (d : AzDisk) => if d.name = id then {d with tags := tags} else d
    (.ok (), {st with disks := st.disks.map upd}, [.updateDiskTags id])
  else
    (.error (.cloudError "disk not available"), st, [])

/-- `AzureVolumeService.get(volume_id)`: CloudError converts to `None`. -/
def azureVolumeGet (id : String) : AzM (Option AzVolume) :=
  azCatchCloud
    (do let d ← azClientGetDisk id; pure (some (azWrapDisk d)))
    (fun _ => pure none)

/-- `azure_helpers.filter(items, {'Name': name})`.
Modelled from the spec: the helpers module is not part of the sources at
hand; the requested name is stored in the resource's `Name` tag and `find`
is an exact-match filter on it, so the helper keeps the items whose `Name`
tag equals the requested value. -/
def azureFilterByName {α : Type} (tagsOf : α → List (String × String))
    (name : String) (items : List α) : List α :=
  items.filter (fun i => tagGet (tagsOf i) "Name" = some name)

/-- `AzureVolumeService.find(name)`: client-side filter of the disk list by
the `Name` tag. -/
def azureVolumeFind (name : String) : AzM (List AzVolume) := fun st =>
  (.ok ((azureFilterByName AzDisk.tags name st.disks).map azWrapDisk), st, [])

/-- `azure_client.get_snapshot(id)`: raises CloudError when the snapshot is
not available. -/
def azClientGetSnapshot (id : String) : AzM AzSnapRes := fun st =>
  match st.snapshots.find? (fun s => s.name = id) with
  | some s => (.ok s, st, [])
  | none => (.error (.cloudError "snapshot not available"), st, [])

/-- `AzureSnapshotService.get(ss_id)`: CloudError converts to `None`. -/
def azureSnapshotGet (id : String) : AzM (Option AzSnapshot) :=
  azCatchCloud
    (do let s ← azClientGetSnapshot id; pure (some (azWrapSnap s)))
    (fun _ => pure none)

/-- The snapshot-argument resolution of `AzureVolumeService.create`:
`snapshots.get(snapshot) if snapshot and isinstance(snapshot, str) else
snapshot`. -/
def azureResolveSnapshotArg (snapshot : Option (StrOr AzSnapshot)) :
    AzM (Option AzSnapshot) :=
  match snapshot with
  | some (.str s) => azureSnapshotGet s
  | some (.obj o) => pure (some o)
  | none => pure none

/-- The volume-argument resolution of `AzureSnapshotService.create`:
`volumes.get(volume) if isinstance(volume, str) else volume`. -/
def azureResolveVolumeArg (volume : StrOr AzVolume) : AzM (Option AzVolume) :=
  match volume with
  | .str s => azureVolumeGet s
  | .obj o => pure (some o)

/-- The `Name`/`Description` tag dictionary built by the create calls. -/
def azureNameTags (name : String) (description : Option String) :
    List (String × String) :=
  match description with
  | some d => [("Name", name), ("Description", d)]
  | none => [("Name", name)]

/-- `AzureVolumeService.create(name, size, zone, snapshot, description)`:
the native disk name is the requested name plus a dash and a random suffix;
the requested name goes into the `Name` tag; a snapshot source makes a copy
disk, otherwise an empty disk of the requested size is created. -/
def azureVolumeCreate (σ : Nat → String) (name : String) (size : Option Nat)
    (zone : Option (StrOr String)) (snapshot : Option (StrOr AzSnapshot))
    (description : Option String) : AzM AzVolume := do
  let zoneId : Option String := match zone with
    | some (.obj z) => some z
    | some (.str s) => some s
    | none => none
  let snap ← azureResolveSnapshotArg snapshot
  let suffix ← azFreshSuffix σ
  let diskName := name ++ "-" ++ suffix
  let tags := azureNameTags name description
  match snap with
  | some sp => azClientCreateSnapshotDisk diskName tags sp.size (zoneId.getD azureRegionName)
  | none => azClientCreateEmptyDisk diskName tags size (zoneId.getD azureRegionName)
  let d ← azClientGetDisk diskName
  pure (azWrapDisk d)

/-- `AzureSnapshotService.create(name, volume, description)`: the native
snapshot name is the requested name plus a dash and a random suffix; the
requested name goes into the `Name` tag; the snapshot copies the volume's
size. -/
def azureSnapshotCreate (σ : Nat → String) (name : String)
    (volume : StrOr AzVolume) (description : Option String) :
    AzM AzSnapshot := do
  let vol ← azureResolveVolumeArg volume
  let tags := azureNameTags name description
  let suffix ← azFreshSuffix σ
  let snapshotName := name ++ "-" ++ suffix
  match vol with
  | none => azThrow .attributeError
  | some v => do
    let s : AzSnapRes := ⟨snapshotName, tags, v.size⟩
    azModify (fun st =>
      {st with snapshots := s :: st.snapshots.filter (fun x => x.name ≠ snapshotName)})
    azEmit (.createSnapshot snapshotName)
    let s2 ← azClientGetSnapshot snapshotName
    pure (azWrapSnap s2)

/-! ### Azure images, networks and subnets -/

/-- `azure_client.get_image(id)`: raises CloudError when not available. -/
def azClientGetImage (id : String) : AzM AzImage := fun st =>
  match st.images.find? (fun i => i.id = id) with
  | some i => (.ok i, st, [])
  | none => (.error (.cloudError "image not available"), st, [])

/-- `AzureImageService.get(image_id)`: CloudError converts to `None`. -/
def azureImageGet (id : String) : AzM (Option AzImage) :=
  azCatchCloud
    (do let i ← azClientGetImage id; pure (some i))
    (fun _ => pure none)

/-- Modelled from the spec: the class-level library-default network name
constant on the `AzureNetwork` resource wrapper. -/
def azDefaultNetworkName : String := "cloudbridge-net"

/-- Modelled from the spec: the class-level library-default subnet name
constant on the `AzureSubnet` resource wrapper. -/
def azDefaultSubnetName : String := "cloudbridge-subnet"

/-- `azure_client.create_network(name, params)`. -/
def azClientCreateNetwork (name : String) : AzM Unit := fun st =>
  (.ok (), {st with networks := name :: st.networks.filter (fun x => x ≠ name)},
   [.createNetwork name])

/-- `azure_client.get_network(name)`: raises CloudError when not
available. -/
def azClientGetNetwork (name : String) : AzM String := fun st =>
  if st.networks.contains name then (.ok name, st, [])
  else (.error (.cloudError "network not available"), st, [])

/-- `AzureNetworkService.create(name)`: a `None` name means the library
default network (no random suffix); a given name gets a dash and a random
suffix.  Returns the created network (by name). -/
def azureNetworkCreate (σ : Nat → String) (name : Option String) :
    AzM String := do
  let networkName ← match name with
    | some n => do
      let suffix ← azFreshSuffix σ
      pure (n ++ "-" ++ suffix)
    | none => pure azDefaultNetworkName
  azClientCreateNetwork networkName
  azClientGetNetwork networkName

/-- The cloudbridge `AzureSubnet` view: `id` is the composite identifier,
`resource_id` the backend URI, `zoneId` is `subnet.zone.id`. -/
structure AzSubnet where
  id : String
  resourceId : String
  zoneId : Option String
  deriving DecidableEq, Repr

/-- Wrap a native subnet as an `AzureSubnet`.
Modelled from the spec for the wrapper fields: the composite `id` joins the
parent network identifier and the subnet identifier with the reserved
delimiter, and the subnet may carry zone affinity. -/
def azWrapSubnet (s : AzNativeSubnet) : AzSubnet :=
  ⟨joinSubnetId s.network s.name, azMkSubnetResourceId s.network s.name, s.zone⟩

/-- `azure_client.get_subnet(network, name)`: raises CloudError when the
subnet is not available. -/
def azClientGetSubnet (net sub : String) : AzM AzNativeSubnet := fun st =>
  match st.subnets.find? (fun s => s.network = net ∧ s.name = sub) with
  | some s => (.ok s, st, [])
  | none => (.error (.cloudError "subnet not available"), st, [])

/-- `azure_client.create_subnet(network, name, params)`: returns the created
native subnet. -/
def azClientCreateSubnet (net sub : String) : AzM AzNativeSubnet := fun st =>
  let s : AzNativeSubnet := ⟨net, sub, none⟩
  let keep := fun (x : AzNativeSubnet) => ¬(x.network = net ∧ x.name = sub)
  (.ok s, {st with subnets := s :: st.subnets.filter keep},
   [.createSubnet net sub])

/-- `azure_client.delete_subnet(network, name)`: raises CloudError when the
subnet is not available. -/
def azClientDeleteSubnet (net sub : String) : AzM Unit := fun st =>
  if st.subnets.any (fun s => s.network = net ∧ s.name = sub) then
    let keep := fun (x : AzNativeSubnet) => ¬(x.network = net ∧ x.name = sub)
    (.ok (), {st with subnets := st.subnets.filter keep}, [.deleteSubnet net sub])
  else
    (.error (.cloudError "subnet not available"), st, [])

/-- `AzureSubnetService.get(subnet_id)`: splits the composite identifier on
`'|$|'` and fetches by network and subnet part; CloudError converts to
`None`; a missing second part is a Python IndexError and propagates. -/
def azureSubnetGet (sid : String) : AzM (Option AzSubnet) :=
  azCatchCloud
    (match (splitDelim sid.data).map String.mk with
     | p0 :: p1 :: _ => do
       let s ← azClientGetSubnet p0 p1
       pure (some (azWrapSubnet s))
     | _ => azThrow .indexError)
    (fun _ => pure none)

/-- `AzureSubnetService.delete(subnet)`: accepts an object or a composite
identifier string, splits on `'|$|'` and deletes by network and subnet part;
True on success, False when the client raised CloudError. -/
def azureSubnetDelete (subnet : StrOr AzSubnet) : AzM Bool :=
  azCatchCloud
    (do
      let sid := match subnet with
        | .obj s => s.id
        | .str s => s
      match (splitDelim sid.data).map String.mk with
      | p0 :: p1 :: _ => do
        azClientDeleteSubnet p0 p1
        pure true
      | _ => azThrow .indexError)
    (fun _ => pure false)

/-- `AzureSubnetService.get_or_create_default()`: look for the
library-default subnet; when absent, create the default network if needed
and then the default subnet under it. -/
def azureSubnetGetOrCreateDefault (σ : Nat → String) : AzM AzSubnet := do
  let subnet : Option AzNativeSubnet ←
    azCatchCloud
      (do let s ← azClientGetSubnet azDefaultNetworkName azDefaultSubnetName
          pure (some s))
      (fun _ => pure none)
  match subnet with
  | some s => pure (azWrapSubnet s)
  | none => do
    let network : Option String ←
      azCatchCloud
        (do let n ← azClientGetNetwork azDefaultNetworkName; pure (some n))
        (fun _ => pure none)
    if network = none then do
      let _ ← azureNetworkCreate σ none
      pure ()
    let s ← azClientCreateSubnet azDefaultNetworkName azDefaultSubnetName
    pure (azWrapSubnet s)

/-! ### Azure instance creation (`AzureInstanceService`)

`create` resolves the key pair, image, subnet, zone and security groups,
processes the block-device mappings, creates the network interface and then
the virtual machine.  The resolution happens in `_resolve_launch_options`,
the device translation in `_process_block_device_mappings`. -/

/-- The source of a block device in a launch configuration: none (blank),
an existing volume, a snapshot, or a machine image. -/
inductive AzBDSource
  | blank
  | volume (v : AzVolume)
  | snapshot (s : AzSnapshot)
  | machineImage (m : AzImage)
  deriving DecidableEq, Repr

/-- One block-device mapping entry of a launch configuration. -/
structure AzBlockDevice where
  isVolume : Bool
  isRoot : Bool
  source : AzBDSource
  size : Option Nat
  deleteOnTerminate : Option Bool
  deriving DecidableEq, Repr

/-- A launch configuration: the ordered block-device list. -/
structure AzLaunchConfig where
  blockDevices : List AzBlockDevice
  deriving DecidableEq, Repr

/-- `Snapshot.create_volume()` on the Azure snapshot wrapper.
Modelled from the spec: the wrapper classes are not part of the sources at
hand; "non-root entries with a Snapshot source create a new volume from that
snapshot", delegating to the volume service's create with the snapshot as
the source. -/
def azureSnapshotCreateVolume (σ : Nat → String) (s : AzSnapshot) :
    AzM AzVolume :=
  azureVolumeCreate σ ("from-snap-" ++ s.id) none none (some (.obj s)) none

/-- The accumulator of `_process_block_device_mappings`: the data-disk list,
the running `volumes_count` used for LUN numbering, and the root disk
size. -/
structure AzBDMAcc where
  disks : List AzDataDisk
  volumesCount : Nat
  rootDiskSize : Option Nat
  deriving DecidableEq, Repr

/-- The `attach_volume` closure: append a data-disk entry at the current
LUN, store the `delete_on_terminate` policy in the volume's tags and push
the tags to the backend. -/
def azureAttachVolume (acc : AzBDMAcc) (volume : AzVolume)
    (deleteOnTerminate : Option Bool) : AzM AzBDMAcc := do
  let disk : AzDataDisk :=
    ⟨acc.volumesCount, volume.id, "attach", volume.resourceId⟩
  let dot := deleteOnTerminate.getD false
  let newTags := tagUpdate volume.tags "delete_on_terminate" (pyStr dot)
  azClientUpdateDiskTags volume.id newTags
  pure {acc with disks := acc.disks ++ [disk]}

/-- One step of `_process_block_device_mappings` over a single device:
root devices only set the boot-disk size; non-root devices attach an
existing volume, create one from a snapshot, are silently skipped for a
machine-image source, or create a blank volume — failing fast when no zone
is available; ephemeral devices are ignored. -/
def azureBDMStep (σ : Nat → String) (vmName : String) (zone : Option String)
    (acc : AzBDMAcc) (device : AzBlockDevice) : AzM AzBDMAcc := do
  if device.isVolume then
    if device.isRoot then
      pure {acc with rootDiskSize := device.size}
    else do
      let acc2 ← match device.source with
        | .snapshot s => do
          let snapshotVol ← azureSnapshotCreateVolume σ s
          azureAttachVolume acc snapshotVol device.deleteOnTerminate
        | .volume v => azureAttachVolume acc v device.deleteOnTerminate
        | .machineImage _ => pure acc
        | .blank =>
          match zone with
          | none =>
            azThrow (.invalidConfiguration
              "A zone must be specified when launching with a new blank volume block device mapping.")
          | some z => do
            let suffix ← azFreshSuffix σ
            let volName := vmName ++ "_" ++ suffix ++ "_disk"
            let newVol ← azureVolumeCreate σ volName device.size
              (some (.str z)) none none
            azureAttachVolume acc newVol device.deleteOnTerminate
      pure {acc2 with volumesCount := acc2.volumesCount + 1}
  else
    pure acc

/-- The error raised by `_process_block_device_mappings` for a blank
non-root volume device when no zone is available. -/
def azBlankZoneErr : Err :=
  .invalidConfiguration
    "A zone must be specified when launching with a new blank volume block device mapping."

/-- The block devices whose processing step neither calls the provider nor
fails, per the step's branches: non-volume (ephemeral) devices, root
devices, and non-root devices with a machine-image source. -/
def azBDMPureDevice (d : AzBlockDevice) : Bool :=
  (!d.isVolume) || d.isRoot ||
    (match d.source with
     | .machineImage _ => true
     | _ => false)

/-- `_process_block_device_mappings(launch_config, vm_name, zone)`: fold the
step over the ordered device list, returning the data disks and the root
disk size. -/
def azureProcessBDM (σ : Nat → String) (cfg : AzLaunchConfig)
    (vmName : String) (zone : Option String) :
    AzM (List AzDataDisk × Option Nat) := do
  let acc ← cfg.blockDevices.foldlM (azureBDMStep σ vmName zone) ⟨[], 0, none⟩
  pure (acc.disks, acc.rootDiskSize)

/-- The security-groups argument of `create`: a list of resolved group
objects or a list of bare group ids (Python checks the type of the first
element), or nothing. -/
inductive AzSGArg
  | objs (l : List AzSG)
  | ids (l : List String)
  deriving DecidableEq, Repr

/-- The Python for-loop of the merge branch:
`for sg in security_groups: new_sg.add_rule(src_group=sg)`. -/
def azureAddRulesLoop (target : String) : List (StrOr AzSG) → AzM Unit
  | [] => pure ()
  | r :: rs => do
    azureSGAddRuleRef target r
    azureAddRulesLoop target rs

/-- The security-group portion of `_resolve_launch_options`: compute the
group id list and the first group's resource id (resolving a leading bare
id through the service); when more than one group is requested, create the
merge group named `<name>-sg`, import every requested group's rules into it
and use its resource id. -/
def azureResolveSecurityGroups (name : String)
    (securityGroups : Option AzSGArg) : AzM (Option String) := do
  let info : Option (List String × List (StrOr AzSG) × String) ←
    match securityGroups with
    | some (.objs (g :: gs)) =>
      pure (some ((g :: gs).map (fun x => x.name),
        (g :: gs).map StrOr.obj, g.resourceId))
    | some (.ids (i :: is)) => do
      let sg ← azureSecurityGroupGet i
      match sg with
      | some s => pure (some (i :: is, (i :: is).map StrOr.str, s.resourceId))
      | none => azThrow .attributeError
    | _ => pure none
  match info with
  | none => pure none
  | some (sgIds, sgRefs, firstRid) =>
    if sgRefs.length > 1 then do
      let newSg ← azureSecurityGroupCreate (name ++ "-sg")
        (some ("Merge security groups " ++ String.intercalate "," sgIds))
      azureAddRulesLoop newSg.name sgRefs
      pure (some newSg.resourceId)
    else
      pure (some firstRid)

/-- `_resolve_launch_options(name, subnet, zone_id, security_groups)`: the
subnet's zone takes precedence over the requested zone; the security groups
are resolved (merging when more than one); the resolved subnet resource id,
zone id and security-group resource id are returned — a missing subnet
fails at the final attribute access. -/
def azureResolveLaunchOptions (name : String)
    (subnet : Option AzSubnet) (zoneId0 : Option String)
    (securityGroups : Option AzSGArg) :
    AzM (String × Option String × Option String) := do
  let zoneId := match subnet with
    | some sn => sn.zoneId
    | none => zoneId0
  let securityGroupId ← azureResolveSecurityGroups name securityGroups
  match subnet with
  | some sn => pure (sn.resourceId, zoneId, securityGroupId)
  | none => azThrow .attributeError

/-- `azure_client.create_nic(name, params)`. -/
def azClientCreateNic (name subnetId : String) (sgId : Option String) :
    AzM String := fun st =>
  (.ok ("/nic/" ++ name), st, [.createNic name subnetId sgId])

/-- `azure_client.create_vm(name, params)`. -/
def azClientCreateVm (vm : AzVm) : AzM Unit := fun st =>
  (.ok (), {st with vms := vm :: st.vms.filter (fun v => v.name ≠ vm.name)},
   [.createVm vm.name vm.location (tagGet vm.tags "Name")])

/-- `azure_client.get_vm(name)`: raises CloudError when not available. -/
def azClientGetVm (name : String) : AzM AzVm := fun st =>
  match st.vms.find? (fun v => v.name = name) with
  | some v => (.ok v, st, [])
  | none => (.error (.cloudError "vm not available"), st, [])

/-- The cloud-init prefixing of user data: a recognized header is kept,
everything else gets the `#cloud-config` header. -/
def azureUserData (userData : Option String) : Option String :=
  match userData with
  | some u =>
    if ¬u.startsWith "#!" ∧ ¬u.startsWith "#cloud-config" then
      some ("#cloud-config\n" ++ u)
    else some u
  | none => none

/-- The final phase of `AzureInstanceService.create`: network-interface
creation, payload assembly (location from the resolved zone or the region,
cloud-init-prefixed user data, Name and Key_Pair tags, key material and
image reference — missing ones fail here) and virtual-machine creation. -/
def azureInstanceCreateFinish (name instanceName : String)
    (keyPairR : Option AzKeyPair) (imageR : Option AzImage)
    (instanceSize : String) (subnetRid : String) (zoneId : Option String)
    (securityGroupId : Option String) (userData : Option String)
    (disks : Option (List AzDataDisk)) (rootDiskSize : Option Nat) :
    AzM AzVm := do
  let _nicId ← azClientCreateNic (instanceName ++ "_nic") subnetRid
    securityGroupId
  let ud := azureUserData userData
  let location := zoneId.getD azureRegionName
  let keyData ← match keyPairR with
    | some k => pure k.key
    | none => azThrow .attributeError
  let imageRid ← match imageR with
    | some i => pure i.resourceId
    | none => azThrow .attributeError
  let tags0 := [("Name", name)]
  let tags := match keyPairR with
    | some k => tagUpdate tags0 "Key_Pair" k.name
    | none => tags0
  let vm : AzVm :=
    ⟨instanceName, location, tags, instanceSize, imageRid, keyData, ud,
     disks, rootDiskSize⟩
  azClientCreateVm vm
  azClientGetVm instanceName

/-- The tail of `AzureInstanceService.create` after launch-option
resolution: block-device processing, then the final phase. -/
def azureInstanceCreateTail (σ : Nat → String) (name instanceName : String)
    (keyPairR : Option AzKeyPair) (imageR : Option AzImage)
    (instanceSize : String) (subnetRid : String) (zoneId : Option String)
    (securityGroupId : Option String) (userData : Option String)
    (launchConfig : Option AzLaunchConfig) : AzM AzVm := do
  let dr : Option (List AzDataDisk) × Option Nat ←
    match launchConfig with
    | some cfg => do
      let (d, r) ← azureProcessBDM σ cfg name zoneId
      pure (some d, r)
    | none => pure (none, none)
  azureInstanceCreateFinish name instanceName keyPairR imageR instanceSize
    subnetRid zoneId securityGroupId userData dr.1 dr.2

/-- The key-pair argument resolution of `AzureInstanceService.create`: a
missing key pair raises, a string is looked up, an object passes through. -/
def azureResolveKeyPairArg (keyPair : Option (StrOr AzKeyPair)) :
    AzM (Option AzKeyPair) :=
  match keyPair with
  | some (.str s) => azureKeyPairGet s
  | some (.obj k) => pure (some k)
  | none =>
    azThrow (.generic
      "Can not create instance in azure without public key. Keypair required")

/-- The image-argument resolution of `AzureInstanceService.create`. -/
def azureResolveImageArg (image : StrOr AzImage) : AzM (Option AzImage) :=
  match image with
  | .str s => azureImageGet s
  | .obj o => pure (some o)

/-- The subnet-argument resolution of `AzureInstanceService.create`: absent
means get-or-create the default, a string is looked up, an object passes
through. -/
def azureResolveSubnetArg (σ : Nat → String)
    (subnet : Option (StrOr AzSubnet)) : AzM (Option AzSubnet) :=
  match subnet with
  | none => do
    let s ← azureSubnetGetOrCreateDefault σ
    pure (some s)
  | some (.str s) => azureSubnetGet s
  | some (.obj o) => pure (some o)

/-- `AzureInstanceService.create`: the native instance name is the requested
name plus a dash and a random suffix; a key pair is mandatory; the image,
subnet (defaulted when absent) and zone are resolved, launch options worked
out, block devices processed, and the network interface and virtual machine
created. -/
def azureInstanceCreate (σ : Nat → String) (name : String)
    (image : StrOr AzImage) (instanceType : StrOr String)
    (subnet : Option (StrOr AzSubnet)) (zone : Option (StrOr String))
    (keyPair : Option (StrOr AzKeyPair)) (securityGroups : Option AzSGArg)
    (userData : Option String) (launchConfig : Option AzLaunchConfig) :
    AzM AzVm := do
  let suffix ← azFreshSuffix σ
  let instanceName := name ++ "-" ++ suffix
  let keyPairR ← azureResolveKeyPairArg keyPair
  let imageR ← azureResolveImageArg image
  let instanceSize := match instanceType with
    | .obj t => t
    | .str s => s
  let subnetR ← azureResolveSubnetArg σ subnet
  let zoneId0 : Option String := match zone with
    | some (.obj z) => some z
    | some (.str s) => some s
    | none => none
  let (subnetRid, zoneId, securityGroupId) ←
    azureResolveLaunchOptions instanceName subnetR zoneId0 securityGroups
  azureInstanceCreateTail σ name instanceName keyPairR imageR instanceSize
    subnetRid zoneId securityGroupId userData launchConfig

/-- `AzureInstanceService.get(instance_id)`: CloudError converts to
`None`. -/
def azureInstanceGet (id : String) : AzM (Option AzVm) :=
  azCatchCloud
    (do let v ← azClientGetVm id; pure (some v))
    (fun _ => pure none)

/-! ## The OpenStack backend model

The nova / cinder / neutron clients are external SDKs raising distinguishable
not-found errors (`NovaNotFound`, `CinderNotFound`) and `Conflict` on
uniquely-keyed collisions.  Backend identifiers are assigned from a fresh
counter in the state. -/

/-- A provider-native OpenStack security group. -/
structure OSSG where
  id : String
  name : String
  deriving DecidableEq, Repr

/-- A provider-native OpenStack subnet. -/
structure OSSubnet where
  id : String
  name : String
  networkId : String
  deriving DecidableEq, Repr

/-- A provider-native OpenStack network. -/
structure OSNet where
  id : String
  name : String
  external : Bool
  deriving DecidableEq, Repr

/-- The OpenStack backend state.  `kpFaults` lists key-pair ids whose fetch
fails with a non-not-found provider error. -/
structure OSState where
  keyPairs : List String
  kpFaults : List String
  sgs : List OSSG
  networks : List OSNet
  subnets : List OSSubnet
  routers : List (String × String)
  nextId : Nat
  deriving DecidableEq, Repr

/-- Provider mutation calls made against the OpenStack backend. -/
inductive OSCall
  | novaCreateKeyPair (name : String)
  | novaDeleteSecurityGroup (id : String)
  | neutronCreateNetwork (name : String)
  | neutronCreateSubnet (name networkId : String)
  | neutronCreateRouter (name : String)
  | routerAttachSubnet (router subnet : String)
  | routerAttachGateway (router net : String)
  deriving DecidableEq, Repr

/-- The OpenStack service monad, same shape as `AzM`. -/
def OSM (α : Type) : Type :=
  OSState → Except Err α × OSState × List OSCall

instance : Monad OSM where
  pure a := fun st => (.ok a, st, [])
  bind m f := fun st =>
    match m st with
    | (.ok a, st1, tr1) =>
      match f a st1 with
      | (r, st2, tr2) => (r, st2, tr1 ++ tr2)
    | (.error e, st1, tr1) => (.error e, st1, tr1)

/-- Raise a Python exception. -/
def osThrow (e : Err) : OSM α := fun st => (.error e, st, [])

/-- `nova.keypairs.get(id)`: `NovaNotFound` when absent; ids in `kpFaults`
fail with another provider error. -/
def osNovaKeyPairsGet (name : String) : OSM String := fun st =>
  if st.kpFaults.contains name then
    (.error (.otherError "provider failure"), st, [])
  else if st.keyPairs.contains name then (.ok name, st, [])
  else (.error .novaNotFound, st, [])

/-- `OpenStackKeyPairService.get(key_pair_id)`: only `NovaNotFound` is
caught and converted to `None`. -/
def osKeyPairGet (name : String) : OSM (Option String) := fun st =>
  match osNovaKeyPairsGet name st with
  | (.ok kp, st1, tr1) => (.ok (some kp), st1, tr1)
  | (.error Err.novaNotFound, st1, tr1) => (.ok none, st1, tr1)
  | (.error e, st1, tr1) => (.error e, st1, tr1)

/-- `Resource.assert_valid_resource_name(name)` on the OpenStack wrappers.
Modelled from the spec: the wrapper classes are not part of the sources at
hand; the check is a stateless name validation given by the predicate
`valid`, raising when the name is rejected. -/
def osAssertValidName (valid : String → Bool) (name : String) : OSM Unit :=
  fun st =>
    if valid name then (.ok (), st, [])
    else (.error (.generic ("Invalid name: " ++ name)), st, [])

/-- `nova.keypairs.create(name)`: the nova client raises a Conflict error
when a key pair with the name already exists (the spec's Conflict taxonomy:
"attempted create collides with an existing uniquely-keyed resource (e.g.,
key-pair name reuse)"). -/
def osNovaKeyPairsCreate (name : String) : OSM String := fun st =>
  if st.keyPairs.contains name then
    (.error (.conflict ("Key pair " ++ name ++ " already exists")), st, [])
  else
    (.ok name, {st with keyPairs := st.keyPairs ++ [name]},
     [.novaCreateKeyPair name])

/-- `OpenStackKeyPairService.create(name)`: validates the name and creates
through nova, wrapping the result. -/
def osKeyPairCreate (valid : String → Bool) (name : String) :
    OSM (Option String) := do
  osAssertValidName valid name
  let kp ← osNovaKeyPairsCreate name
  pure (some kp)

/-- `nova.security_groups.get(sg_id)`: `NovaNotFound` when absent. -/
def osNovaSecurityGroupsGet (sgId : String) : OSM OSSG := fun st =>
  match st.sgs.find? (fun g => g.id = sgId) with
  | some g => (.ok g, st, [])
  | none => (.error .novaNotFound, st, [])

/-- `OpenStackSecurityGroupService.get(sg_id)`: only `NovaNotFound` is
caught and converted to `None`. -/
def osSecurityGroupGet (sgId : String) : OSM (Option OSSG) := fun st =>
  match osNovaSecurityGroupsGet sgId st with
  | (.ok g, st1, tr1) => (.ok (some g), st1, tr1)
  | (.error Err.novaNotFound, st1, tr1) => (.ok none, st1, tr1)
  | (.error e, st1, tr1) => (.error e, st1, tr1)

/-- `SecurityGroup.delete()` on the OpenStack wrapper.
Modelled from the spec: the wrapper classes are not part of the sources at
hand; the wrapper deletes the wrapped group through the nova client. -/
def osSGWrapperDelete (g : OSSG) : OSM Unit := fun st =>
  (.ok (), {st with sgs := st.sgs.filter (fun x => x.id ≠ g.id)},
   [.novaDeleteSecurityGroup g.id])

/-- `OpenStackSecurityGroupService.delete(group_id)`: fetch the group, delete
it when present, and return True either way (True means the group does not
exist after the call). -/
def osSecurityGroupDelete (groupId : String) : OSM Bool := do
  let sg ← osSecurityGroupGet groupId
  match sg with
  | some g => do
    osSGWrapperDelete g
    pure true
  | none => pure true

/-! ### OpenStack default subnet (`OpenStackSubnetService.get_or_create_default`) -/

/-- Modelled from the spec: the library-default network name constant on the
`OpenStackNetwork` resource wrapper. -/
def osDefaultNetworkName : String := "cloudbridge-net"

/-- Modelled from the spec: the library-default subnet name constant on the
`OpenStackSubnet` resource wrapper. -/
def osDefaultSubnetName : String := "cloudbridge-subnet"

/-- Modelled from the spec: the library-default router name constant on the
`OpenStackRouter` resource wrapper. -/
def osDefaultRouterName : String := "cloudbridge-router"

/-- Modelled from the spec: the library-default gateway name constant on the
`OpenStackInternetGateway` resource wrapper. -/
def osDefaultGatewayName : String := "cloudbridge-gateway"

/-- `OpenStackSubnetService.find(name=...)`.
Modelled from the spec: `find` is inherited from the base service, which is
not part of the sources at hand; per the spec it is a name filter over the
subnet list. -/
def osSubnetFind (name : String) : OSM (List OSSubnet) := fun st =>
  (.ok (st.subnets.filter (fun s => s.name = name)), st, [])

/-- `neutron.create_network({'network': {'name': name}})`: the backend
assigns a fresh id. -/
def osNeutronCreateNetwork (name : String) : OSM OSNet := fun st =>
  let n : OSNet := ⟨"network-" ++ toString st.nextId, name, false⟩
  (.ok n, {st with networks := st.networks ++ [n], nextId := st.nextId + 1},
   [.neutronCreateNetwork name])

/-- `OpenStackNetworkService.create(name, cidr_block)`: validates the name
and creates through neutron; the cidr argument is unused by the source. -/
def osNetworkCreate (valid : String → Bool) (name : String)
    (cidrBlock : String) : OSM OSNet := do
  osAssertValidName valid name
  let _ := cidrBlock
  osNeutronCreateNetwork name

/-- `neutron.create_subnet({'subnet': info})`: the backend assigns a fresh
id. -/
def osNeutronCreateSubnet (name networkId cidr : String) : OSM OSSubnet :=
  fun st =>
    let _ := cidr
    let s : OSSubnet := ⟨"subnet-" ++ toString st.nextId, name, networkId⟩
    (.ok s, {st with subnets := st.subnets ++ [s], nextId := st.nextId + 1},
     [.neutronCreateSubnet name networkId])

/-- `OpenStackSubnetService.create(name, network, cidr_block)`: validates
the name, resolves the network argument and creates through neutron. -/
def osSubnetCreate (valid : String → Bool) (name : String)
    (network : StrOr OSNet) (cidrBlock : String) : OSM OSSubnet := do
  osAssertValidName valid name
  let networkId := match network with
    | .obj n => n.id
    | .str s => s
  osNeutronCreateSubnet name networkId cidrBlock

/-- `Network.create_subnet(name, cidr_block)` on the OpenStack wrapper.
Modelled from the spec: the wrapper delegates to the subnet service's create
for this network. -/
def osNetWrapperCreateSubnet (valid : String → Bool) (net : OSNet)
    (name cidr : String) : OSM OSSubnet :=
  osSubnetCreate valid name (.obj net) cidr

/-- `neutron.create_router(body)`: the backend assigns a fresh id. -/
def osNeutronCreateRouter (name : String) : OSM (String × String) := fun st =>
  let r := ("router-" ++ toString st.nextId, name)
  (.ok r, {st with routers := st.routers ++ [r], nextId := st.nextId + 1},
   [.neutronCreateRouter name])

/-- `OpenStackRouterService.create(name, network)`: validates the name and
creates through neutron; the network argument is unused by the source. -/
def osRouterCreate (valid : String → Bool) (name : String) :
    OSM (String × String) := do
  osAssertValidName valid name
  osNeutronCreateRouter name

/-- `Router.attach_subnet(sn)` on the OpenStack wrapper.
Modelled from the spec: attaches the subnet to the router through
neutron. -/
def osRouterAttachSubnet (router : String × String) (s : OSSubnet) :
    OSM Unit := fun st =>
  (.ok (), st, [.routerAttachSubnet router.1 s.id])

/-- `Router.attach_gateway(gw)` on the OpenStack wrapper.
Modelled from the spec: sets the router's gateway through neutron using the
gateway network's id; called with `None` (no external network found) the
attribute access fails. -/
def osRouterAttachGateway (router : String × String) (g : Option OSNet) :
    OSM Unit := fun st =>
  match g with
  | some n => (.ok (), st, [.routerAttachGateway router.1 n.id])
  | none => (.error .attributeError, st, [])

/-- `OpenStackGatewayService.get_or_create_inet_gateway(name)`: validates
the name and returns the first external network, or `None`. -/
def osGatewayGetOrCreate (valid : String → Bool) (name : String) :
    OSM (Option OSNet) := do
  osAssertValidName valid name
  fun st => (.ok (st.networks.find? (fun n => n.external)), st, [])

/-- `OpenStackSubnetService.get_or_create_default()`: find the
library-default subnet by name; when absent, create the default network,
subnet, router and gateway attachment and return the created subnet. -/
def osSubnetGetOrCreateDefault (valid : String → Bool) :
    OSM (Option OSSubnet) := do
  let sn ← osSubnetFind osDefaultSubnetName
  match sn with
  | s :: _ => pure (some s)
  | [] => do
    let net ← osNetworkCreate valid osDefaultNetworkName "10.0.0.0/16"
    let s ← osNetWrapperCreateSubnet valid net osDefaultSubnetName
      "10.0.0.0/24"
    let router ← osRouterCreate valid osDefaultRouterName
    osRouterAttachSubnet router s
    let gateway ← osGatewayGetOrCreate valid osDefaultGatewayName
    osRouterAttachGateway router gateway
    pure (some s)

/-! ### OpenStack object store (`OpenStackObjectStoreService`) -/

/-- The cloudbridge `OpenStackBucket` view: the wrapper holds the native
swift container, or Python `None` when constructed with no container. -/
structure OSBucket where
  container : Option String
  deriving DecidableEq, Repr

/-- Python `str.startswith`, structurally on the character lists (first
argument: the candidate prefix). -/
def strStarts : List Char → List Char → Bool
  | [], _ => true
  | _ :: _, [] => false
  | p :: ps, c :: cs => (p = c : Bool) && strStarts ps cs

/-- `swift.get_account(prefix=bucket_id)`: the native container names
starting with the prefix (the object store is read-only here, so the swift
account is passed as a plain list). -/
def osSwiftGetAccount (containers : List String) (pfx : String) :
    List String :=
  containers.filter (fun c => strStarts pfx.data c.data)

/-- `OpenStackObjectStoreService.get(bucket_id)`: fetch the containers with
the id as a prefix; when that list is non-empty, wrap the first exact name
match — or Python `None` when there is none — in a bucket; only an empty
list yields `None`. -/
def osObjectStoreGet (containers : List String) (bucketId : String) :
    Option OSBucket :=
  let containerList := osSwiftGetAccount containers bucketId
  if containerList ≠ [] then
    some ⟨containerList.find? (fun c => c = bucketId)⟩
  else
    none

/-! ## Running the monads -/

/-- Run of a bind in `AzM`: on success traces concatenate, an exception
short-circuits with the effects made so far. -/
theorem azBind_run {α β : Type} (m : AzM α) (f : α → AzM β) (st : AzureState) :
    (m >>= f) st =
      match m st with
      | (.ok a, st1, tr1) =>
        ((f a st1).1, (f a st1).2.1, tr1 ++ (f a st1).2.2)
      | (.error e, st1, tr1) => (.error e, st1, tr1) := by
  show (match m st with
    | (.ok a, st1, tr1) =>
      match f a st1 with
      | (r, st2, tr2) => (r, st2, tr1 ++ tr2)
    | (.error e, st1, tr1) => (.error e, st1, tr1)) = _
  rcases m st with ⟨r, st1, tr1⟩
  cases r <;> rfl

/-- Run of `pure` in `AzM`. -/
theorem azPure_run {α : Type} (a : α) (st : AzureState) :
    (pure a : AzM α) st = (.ok a, st, []) := rfl

/-- Run of a bind in `OSM`. -/
theorem osBind_run {α β : Type} (m : OSM α) (f : α → OSM β) (st : OSState) :
    (m >>= f) st =
      match m st with
      | (.ok a, st1, tr1) =>
        ((f a st1).1, (f a st1).2.1, tr1 ++ (f a st1).2.2)
      | (.error e, st1, tr1) => (.error e, st1, tr1) := by
  show (match m st with
    | (.ok a, st1, tr1) =>
      match f a st1 with
      | (r, st2, tr2) => (r, st2, tr1 ++ tr2)
    | (.error e, st1, tr1) => (.error e, st1, tr1)) = _
  rcases m st with ⟨r, st1, tr1⟩
  cases r <;> rfl

/-- Run of `pure` in `OSM`. -/
theorem osPure_run {α : Type} (a : α) (st : OSState) :
    (pure a : OSM α) st = (.ok a, st, []) := rfl

/-- `OpenStackSecurityGroupService.get` computed: always succeeds, with the
backend lookup result. -/
theorem osSecurityGroupGet_run (gid : String) (st : OSState) :
    osSecurityGroupGet gid st =
      (.ok (st.sgs.find? (fun g => g.id = gid)), st, []) := by
  unfold osSecurityGroupGet osNovaSecurityGroupsGet
  cases h : st.sgs.find? (fun g => g.id = gid) <;> simp [h]

/-- `AzureKeyPairService.get` computed: always succeeds, wrapping the stored
row when present. -/
theorem azureKeyPairGet_run (name : String) (st : AzureState) :
    azureKeyPairGet name st =
      (.ok ((st.keyPairs.find? (fun kp => kp.1 = name)).map
        (fun p => ⟨p.1, p.2, none⟩)), st, []) := by
  unfold azureKeyPairGet azClientGetPublicKey
  rw [azBind_run]
  cases h : st.keyPairs.find? (fun kp => kp.1 = name) <;> simp [h, azPure_run]


/-- `AzureSecurityGroupService.delete` computed: True and the group removed
when it existed, False and no change when the backend raised
not-available. -/
theorem azureSecurityGroupDelete_run (gid : String) (st : AzureState) :
    azureSecurityGroupDelete gid st =
      if st.sgs.any (fun g => g.name = gid) then
        (.ok true, {st with sgs := st.sgs.filter (fun g => g.name ≠ gid)},
         [.deleteSecurityGroup gid])
      else (.ok false, st, []) := by
  unfold azureSecurityGroupDelete azCatchCloud azClientDeleteSecurityGroup
  rw [azBind_run]
  by_cases h : st.sgs.any (fun g => g.name = gid) = true <;>
    simp [h, azPure_run]

/-- `OpenStackSecurityGroupService.delete` computed: always True; the group
is removed when present. -/
theorem osSecurityGroupDelete_run (gid : String) (st : OSState) :
    osSecurityGroupDelete gid st =
      match st.sgs.find? (fun g => g.id = gid) with
      | some g =>
        (.ok true, {st with sgs := st.sgs.filter (fun x => x.id ≠ g.id)},
         [.novaDeleteSecurityGroup g.id])
      | none => (.ok true, st, []) := by
  unfold osSecurityGroupDelete
  rw [osBind_run, osSecurityGroupGet_run]
  cases h : st.sgs.find? (fun g => g.id = gid) with
  | none => simp [osPure_run]
  | some g => simp [osBind_run, osSGWrapperDelete, osPure_run]

/-! ## C1 — idempotent / convergent delete -/

/-- C1 counterexample: on Azure, delete is not a convergence operation.
Starting from a backend holding security group `sg1`, the first
`delete("sg1")` returns True, but the second returns False although the
group does not exist after the call (the backend raised its not-available
error, which the service maps to False) — refuting "delete(id) returns True
whenever, after the call, the resource does not exist" and "calling
delete(id) twice on the same resource returns True both times". -/
theorem c1_counterexample :
    (azureSecurityGroupDelete "sg1"
      ⟨[], [], [⟨"sg1", "/nsg/sg1", [], []⟩], [], [], [], [], [], [], 0⟩).1 =
        .ok true ∧
    ((azureSecurityGroupDelete "sg1"
      ⟨[], [], [⟨"sg1", "/nsg/sg1", [], []⟩], [], [], [], [], [], [], 0⟩).2.1).sgs =
        [] ∧
    (azureSecurityGroupDelete "sg1"
      ((azureSecurityGroupDelete "sg1"
        ⟨[], [], [⟨"sg1", "/nsg/sg1", [], []⟩], [], [], [], [], [], [], 0⟩).2.1)).1 =
        .ok false := by
  decide

/-- C1 (amended): deletion is a convergence operation on OpenStack only.
The OpenStack security-group delete returns True whenever the resource does
not exist after the call — in particular both of two repeated deletes return
True.  The Azure security-group delete instead returns True exactly when the
group existed (and deletes it), and False when the backend raised its
not-available error, so the second of two deletes of the same group returns
False. -/
theorem c1_amended_delete_semantics (st : OSState) (ast : AzureState)
    (gid : String) :
    (osSecurityGroupDelete gid st).1 = .ok true ∧
    (osSecurityGroupDelete gid ((osSecurityGroupDelete gid st).2.1)).1 =
      .ok true ∧
    ((osSecurityGroupDelete gid st).2.1).sgs.all (fun g => g.id ≠ gid) = true ∧
    (azureSecurityGroupDelete gid ast).1 =
      .ok (ast.sgs.any (fun g => g.name = gid)) := by
  have hos : ∀ (st2 : OSState), (osSecurityGroupDelete gid st2).1 = .ok true := by
    intro st2
    rw [osSecurityGroupDelete_run]
    cases h : st2.sgs.find? (fun g => g.id = gid) <;> simp
  refine ⟨hos st, hos _, ?_, ?_⟩
  · rw [osSecurityGroupDelete_run]
    cases h : st.sgs.find? (fun g => g.id = gid) with
    | none =>
      simp only [List.all_eq_true, ne_eq, decide_eq_true_eq]
      intro g hg he
      have h2 := List.find?_eq_none.mp h g hg
      simp [he] at h2
    | some g =>
      simp only [List.all_eq_true, List.mem_filter, ne_eq, decide_eq_true_eq]
      intro x hx he
      have hg := List.find?_some h
      simp only [decide_eq_true_eq] at hg
      have hx2 := hx.2
      simp [he, hg] at hx2
  · rw [azureSecurityGroupDelete_run]
    by_cases h : ast.sgs.any (fun g => g.name = gid) = true <;> simp [h]

/-! ## C2 — get converts not-found to None, other errors propagate -/

/-- C2 (amended): for the not-found-catching entity services — the Azure
volume service and the OpenStack key-pair service stand for them — `get(id)`
with an identifier that does not resolve returns `None` and does not raise:
the provider-native not-found error (CloudError, NovaNotFound) is caught and
converted, while any other provider error propagates to the caller
unchanged.  The policy is not universal over every entity service (see the
counterexample). -/
theorem c2_get_not_found_is_none (ast : AzureState) (vid : String)
    (ost : OSState) (kid : String)
    (hAzAbsent : ast.disks.find? (fun d => d.name = vid) = none)
    (hAzNoFault : vid ∉ ast.diskFaults)
    (hOsAbsent : kid ∉ ost.keyPairs)
    (hOsNoFault : kid ∉ ost.kpFaults) :
    (azureVolumeGet vid ast).1 = .ok none ∧
    (osKeyPairGet kid ost).1 = .ok none ∧
    (∀ ast2 : AzureState, vid ∈ ast2.diskFaults →
      (azureVolumeGet vid ast2).1 = .error (.otherError "provider failure")) ∧
    (∀ ost2 : OSState, kid ∈ ost2.kpFaults →
      (osKeyPairGet kid ost2).1 = .error (.otherError "provider failure")) := by
  refine ⟨?_, ?_, ?_, ?_⟩
  · unfold azureVolumeGet azCatchCloud azClientGetDisk
    rw [azBind_run]
    simp [hAzAbsent, hAzNoFault, azPure_run]
  · unfold osKeyPairGet osNovaKeyPairsGet
    simp [hOsAbsent, hOsNoFault]
  · intro ast2 hf
    unfold azureVolumeGet azCatchCloud azClientGetDisk
    rw [azBind_run]
    simp [hf]
  · intro ost2 hf
    unfold osKeyPairGet osNovaKeyPairsGet
    simp [hf]

/-- C2 witness at a concrete input: empty Azure and OpenStack backends and
the identifiers `v` and `k`. -/
theorem c2_witness :
    ((⟨[], [], [], [], [], [], [], [], [], 0⟩ : AzureState).disks.find?
        (fun d => d.name = "v") = none) ∧
    ((azureVolumeGet "v" ⟨[], [], [], [], [], [], [], [], [], 0⟩).1 = .ok none ∧
      (osKeyPairGet "k" ⟨[], [], [], [], [], [], 0⟩).1 = .ok none ∧
      (∀ ast2 : AzureState, "v" ∈ ast2.diskFaults →
        (azureVolumeGet "v" ast2).1 = .error (.otherError "provider failure")) ∧
      (∀ ost2 : OSState, "k" ∈ ost2.kpFaults →
        (osKeyPairGet "k" ost2).1 = .error (.otherError "provider failure"))) :=
  ⟨by decide,
   c2_get_not_found_is_none ⟨[], [], [], [], [], [], [], [], [], 0⟩ "v"
     ⟨[], [], [], [], [], [], 0⟩ "k" (by decide) (by decide) (by decide)
     (by decide)⟩

/-- C2 counterexample at concrete inputs: the universal over every entity
service fails in two places of the source — `AzureSubnetService.get` with a
delimiter-free identifier raises an uncaught IndexError (the `try` only
catches CloudError) instead of returning `None`, and
`OpenStackObjectStoreService.get` with a non-existent bucket id that is a
prefix of an existing container name returns a bucket wrapping Python
`None` instead of `None`. -/
theorem c2_counterexample :
    ((azureSubnetGet "x" ⟨[], [], [], [], [], [], [], [], [], 0⟩).1 =
      .error .indexError) ∧
    osObjectStoreGet ["mybucket-archive"] "mybucket" = some ⟨none⟩ := by
  decide

/-! ## C6 — key-pair create on an existing name fails with a conflict -/

/-- C6: key-pair `create(name)` with a name that already names an existing
key pair fails with a conflict error surfaced to the caller — Azure raises
its "Keypair already exists" error after the pre-check, the OpenStack nova
client raises a Conflict — and in both cases the backend is unchanged (no
overwrite, no second resource) and no create call reaches the provider. -/
theorem c6_keypair_create_conflict (ast : AzureState) (ost : OSState)
    (name : String) (keyGen : String × String) (valid : String → Bool)
    (hAz : (ast.keyPairs.find? (fun kp => kp.1 = name)).isSome = true)
    (hOs : name ∈ ost.keyPairs)
    (hValid : valid name = true) :
    ((azureKeyPairCreate keyGen name ast).1 =
        .error (.generic ("Keypair already exists with name " ++ name)) ∧
      (azureKeyPairCreate keyGen name ast).2.1 = ast ∧
      (azureKeyPairCreate keyGen name ast).2.2 = []) ∧
    ((osKeyPairCreate valid name ost).1 =
        .error (.conflict ("Key pair " ++ name ++ " already exists")) ∧
      (osKeyPairCreate valid name ost).2.1 = ost ∧
      (osKeyPairCreate valid name ost).2.2 = []) := by
  obtain ⟨p, hp⟩ := Option.isSome_iff_exists.mp hAz
  constructor
  · unfold azureKeyPairCreate
    rw [azBind_run, azureKeyPairGet_run]
    simp [hp, azThrow]
  · unfold osKeyPairCreate osAssertValidName osNovaKeyPairsCreate
    rw [osBind_run]
    simp only [hValid, if_true]
    rw [osBind_run]
    simp [hOs]

/-- C6 witness at a concrete input: both backends hold a key pair named
`kp1` and `create("kp1")` is attempted again. -/
theorem c6_witness :
    ((((⟨[], [], [], [], [], [("kp1", "PUB")], [], [], [], 0⟩ : AzureState)).keyPairs.find?
        (fun kp => kp.1 = "kp1")).isSome = true) ∧
    (((azureKeyPairCreate ("PRIV", "PUB2") "kp1"
        ⟨[], [], [], [], [], [("kp1", "PUB")], [], [], [], 0⟩).1 =
          .error (.generic ("Keypair already exists with name " ++ "kp1")) ∧
      (azureKeyPairCreate ("PRIV", "PUB2") "kp1"
        ⟨[], [], [], [], [], [("kp1", "PUB")], [], [], [], 0⟩).2.1 =
          ⟨[], [], [], [], [], [("kp1", "PUB")], [], [], [], 0⟩ ∧
      (azureKeyPairCreate ("PRIV", "PUB2") "kp1"
        ⟨[], [], [], [], [], [("kp1", "PUB")], [], [], [], 0⟩).2.2 = []) ∧
    ((osKeyPairCreate (fun _ => true) "kp1" ⟨["kp1"], [], [], [], [], [], 0⟩).1 =
        .error (.conflict ("Key pair " ++ "kp1" ++ " already exists")) ∧
      (osKeyPairCreate (fun _ => true) "kp1" ⟨["kp1"], [], [], [], [], [], 0⟩).2.1 =
        ⟨["kp1"], [], [], [], [], [], 0⟩ ∧
      (osKeyPairCreate (fun _ => true) "kp1" ⟨["kp1"], [], [], [], [], [], 0⟩).2.2 = [])) :=
  ⟨by decide,
   c6_keypair_create_conflict ⟨[], [], [], [], [], [("kp1", "PUB")], [], [], [], 0⟩
     ⟨["kp1"], [], [], [], [], [], 0⟩ "kp1" ("PRIV", "PUB2") (fun _ => true)
     (by decide) (by decide) (by decide)⟩

/-! ## C9 — machine-image-sourced non-root devices are silently skipped -/

/-- C9: during Azure block-device processing, a non-root volume device with
a MachineImage source contributes no data-disk entry, makes no provider call,
changes no backend state and raises nothing — only the device counter
advances — and processing of the remaining devices continues from there. -/
theorem c9_machine_image_device_skipped (σ : Nat → String) (vmName : String)
    (zone : Option String) (acc : AzBDMAcc) (m : AzImage) (sz : Option Nat)
    (dot : Option Bool) (rest : List AzBlockDevice) (st : AzureState) :
    azureBDMStep σ vmName zone acc ⟨true, false, .machineImage m, sz, dot⟩ st =
      (.ok {acc with volumesCount := acc.volumesCount + 1}, st, []) ∧
    List.foldlM (azureBDMStep σ vmName zone) acc
        (⟨true, false, .machineImage m, sz, dot⟩ :: rest) st =
      List.foldlM (azureBDMStep σ vmName zone)
        {acc with volumesCount := acc.volumesCount + 1} rest st := by
  constructor
  · rfl
  · show (azureBDMStep σ vmName zone acc ⟨true, false, .machineImage m, sz, dot⟩ >>=
      fun a => List.foldlM (azureBDMStep σ vmName zone) a rest) st = _
    rw [azBind_run]
    rcases h : List.foldlM (azureBDMStep σ vmName zone)
      {acc with volumesCount := acc.volumesCount + 1} rest st with ⟨r, st2, tr2⟩
    have hstep : azureBDMStep σ vmName zone acc
        ⟨true, false, .machineImage m, sz, dot⟩ st =
        (.ok {acc with volumesCount := acc.volumesCount + 1}, st, []) := rfl
    simp [hstep, h]

/-! ## C7 — the composite subnet identifier -/

/-- A list free of the delimiter splits to itself. -/
theorem splitDelim_no_delim : ∀ (l : List Char), containsDelim l = false →
    splitDelim l = [l]
  | [], _ => rfl
  | [_], _ => rfl
  | [_, _], _ => rfl
  | c :: d :: e :: rest, h => by
    unfold containsDelim at h
    rw [Bool.or_eq_false_iff] at h
    have hc : ¬(c = '|' ∧ d = '$' ∧ e = '|') := of_decide_eq_false h.1
    have ih := splitDelim_no_delim (d :: e :: rest) h.2
    unfold splitDelim
    rw [if_neg hc, ih]

/-- The split inverts the join, provided neither part contains the delimiter
and the network part does not end in `|$`. -/
theorem splitDelim_join : ∀ (n s : List Char), containsDelim n = false →
    containsDelim s = false → endsPD n = false →
    splitDelim (n ++ '|' :: '$' :: '|' :: s) = [n, s]
  | [], s, _, hs, _ => by
    show splitDelim ('|' :: '$' :: '|' :: s) = [[], s]
    unfold splitDelim
    rw [if_pos ⟨rfl, rfl, rfl⟩, splitDelim_no_delim s hs]
  | [c], s, _, hs, _ => by
    show splitDelim (c :: '|' :: '$' :: '|' :: s) = [[c], s]
    unfold splitDelim
    have hc : ¬(c = '|' ∧ '|' = '$' ∧ '$' = '|') := by
      intro hx
      exact absurd hx.2.1 (by decide)
    have ih : splitDelim ('|' :: '$' :: '|' :: s) = [[], s] :=
      splitDelim_join [] s rfl hs rfl
    rw [if_neg hc, ih]
  | [c, d], s, _, hs, hsuf => by
    show splitDelim (c :: d :: '|' :: '$' :: '|' :: s) = [[c, d], s]
    unfold splitDelim
    have hcd : ¬(c = '|' ∧ d = '$') := by
      have := hsuf
      unfold endsPD at this
      exact of_decide_eq_false this
    have hc : ¬(c = '|' ∧ d = '$' ∧ '|' = '|') := by
      intro hx
      exact hcd ⟨hx.1, hx.2.1⟩
    have ih : splitDelim (d :: '|' :: '$' :: '|' :: s) = [[d], s] :=
      splitDelim_join [d] s rfl hs rfl
    rw [if_neg hc, ih]
  | c1 :: c2 :: c3 :: rest, s, hn, hs, hsuf => by
    show splitDelim (c1 :: c2 :: c3 :: (rest ++ '|' :: '$' :: '|' :: s)) =
      [c1 :: c2 :: c3 :: rest, s]
    unfold splitDelim
    have hn2 := hn
    unfold containsDelim at hn2
    rw [Bool.or_eq_false_iff] at hn2
    have hc : ¬(c1 = '|' ∧ c2 = '$' ∧ c3 = '|') := of_decide_eq_false hn2.1
    have hsuf2 : endsPD (c2 :: c3 :: rest) = false := hsuf
    have ih : splitDelim (c2 :: c3 :: (rest ++ '|' :: '$' :: '|' :: s)) =
        [c2 :: c3 :: rest, s] :=
      splitDelim_join (c2 :: c3 :: rest) s hn2.2 hs hsuf2
    rw [if_neg hc, ih]

/-- C7 (amended): the composite subnet identifier round-trips through the
`'|$|'` join and the `split('|$|')` parse — and `get`/`delete` then address
network `n` and subnet `s` — for every network id `n` and subnet id `s` that
do not contain the delimiter, provided additionally that `n` does not end in
the two characters `|$` (otherwise the join manufactures an earlier
occurrence of the delimiter and the left-to-right split cuts inside `n`). -/
theorem c7_composite_id_roundtrip_amended (n s : String) (st : AzureState)
    (hn : containsDelim n.data = false) (hs : containsDelim s.data = false)
    (hsuf : endsPD n.data = false) :
    splitDelim (joinSubnetId n s).data = [n.data, s.data] ∧
    azureSubnetGet (joinSubnetId n s) st =
      (match st.subnets.find? (fun x => x.network = n ∧ x.name = s) with
       | some r => (.ok (some (azWrapSubnet r)), st, [])
       | none => (.ok none, st, [])) ∧
    azureSubnetDelete (.str (joinSubnetId n s)) st =
      (if st.subnets.any (fun x => x.network = n ∧ x.name = s) then
        (.ok true,
         {st with subnets :=
           st.subnets.filter (fun x => ¬(x.network = n ∧ x.name = s))},
         [.deleteSubnet n s])
       else (.ok false, st, [])) := by
  have hdata : (joinSubnetId n s).data = n.data ++ '|' :: '$' :: '|' :: s.data := by
    unfold joinSubnetId
    rw [String.data_append, String.data_append, List.append_assoc]
    rfl
  have hsplit : splitDelim (joinSubnetId n s).data = [n.data, s.data] := by
    rw [hdata]
    exact splitDelim_join n.data s.data hn hs hsuf
  have hmap : (splitDelim (joinSubnetId n s).data).map String.mk = [n, s] := by
    rw [hsplit]
    rfl
  refine ⟨hsplit, ?_, ?_⟩
  · unfold azureSubnetGet azCatchCloud azClientGetSubnet
    simp only [hmap, azBind_run, azPure_run]
    cases h : st.subnets.find? (fun x => x.network = n ∧ x.name = s) <;> simp
  · unfold azureSubnetDelete azCatchCloud azClientDeleteSubnet
    simp only [hmap, azBind_run, azPure_run]
    by_cases h : st.subnets.any (fun x => x.network = n ∧ x.name = s) = true
    · simp only [if_pos h]
      simp
    · simp only [if_neg h]
      simp

/-- C7 witness at a concrete input: network `net1`, subnet `sub1`, a backend
holding that subnet. -/
theorem c7_witness :
    (containsDelim "net1".data = false ∧ containsDelim "sub1".data = false ∧
      endsPD "net1".data = false) ∧
    (splitDelim (joinSubnetId "net1" "sub1").data = ["net1".data, "sub1".data] ∧
      azureSubnetGet (joinSubnetId "net1" "sub1")
        ⟨[], [⟨"net1", "sub1", none⟩], [], [], [], [], [], [], [], 0⟩ =
      (match ([⟨"net1", "sub1", none⟩] : List AzNativeSubnet).find?
          (fun x => x.network = "net1" ∧ x.name = "sub1") with
       | some r =>
         (.ok (some (azWrapSubnet r)),
          ⟨[], [⟨"net1", "sub1", none⟩], [], [], [], [], [], [], [], 0⟩, [])
       | none =>
         (.ok none,
          ⟨[], [⟨"net1", "sub1", none⟩], [], [], [], [], [], [], [], 0⟩, [])) ∧
      azureSubnetDelete (.str (joinSubnetId "net1" "sub1"))
        ⟨[], [⟨"net1", "sub1", none⟩], [], [], [], [], [], [], [], 0⟩ =
      (if ([⟨"net1", "sub1", none⟩] : List AzNativeSubnet).any
          (fun x => x.network = "net1" ∧ x.name = "sub1") then
        (.ok true,
         {(⟨[], [⟨"net1", "sub1", none⟩], [], [], [], [], [], [], [], 0⟩ : AzureState) with
           subnets := ([⟨"net1", "sub1", none⟩] : List AzNativeSubnet).filter
             (fun x => ¬(x.network = "net1" ∧ x.name = "sub1"))},
         [.deleteSubnet "net1" "sub1"])
       else
        (.ok false,
         ⟨[], [⟨"net1", "sub1", none⟩], [], [], [], [], [], [], [], 0⟩, []))) :=
  ⟨by decide,
   c7_composite_id_roundtrip_amended "net1" "sub1"
     ⟨[], [⟨"net1", "sub1", none⟩], [], [], [], [], [], [], [], 0⟩
     (by decide) (by decide) (by decide)⟩

/-- C7 counterexample: the claim as stated fails for the network id `x|$`
and subnet id `y`, neither of which contains the delimiter `|$|`.  The join
is `x|$|$|y`, whose first delimiter occurrence starts inside the network
part, so the parse yields `("x", "$|y")` instead of `("x|$", "y")`, and
`get`/`delete` address network `x` and subnet `$|y`: on a backend holding
exactly the subnet `("x|$", "y")`, `get` returns None and `delete` returns
False and deletes nothing. -/
theorem c7_counterexample :
    containsDelim "x|$".data = false ∧ containsDelim "y".data = false ∧
    splitDelim (joinSubnetId "x|$" "y").data ≠ ["x|$".data, "y".data] ∧
    (splitDelim (joinSubnetId "x|$" "y").data).map String.mk = ["x", "$|y"] ∧
    (azureSubnetGet (joinSubnetId "x|$" "y")
      ⟨[], [⟨"x|$", "y", none⟩], [], [], [], [], [], [], [], 0⟩).1 = .ok none ∧
    (azureSubnetDelete (.str (joinSubnetId "x|$" "y"))
      ⟨[], [⟨"x|$", "y", none⟩], [], [], [], [], [], [], [], 0⟩).1 = .ok false ∧
    ((azureSubnetDelete (.str (joinSubnetId "x|$" "y"))
      ⟨[], [⟨"x|$", "y", none⟩], [], [], [], [], [], [], [], 0⟩).2.1).subnets =
      [⟨"x|$", "y", none⟩] := by
  decide

/-! ## C8 — default-subnet get-or-create idempotence -/

/-- When the library-default subnet exists, the Azure get-or-create returns
it and changes nothing. -/
theorem azureGetOrCreateDefault_found (σ : Nat → String) (st : AzureState)
    (r : AzNativeSubnet)
    (h : st.subnets.find? (fun x => x.network = azDefaultNetworkName ∧
      x.name = azDefaultSubnetName) = some r) :
    azureSubnetGetOrCreateDefault σ st = (.ok (azWrapSubnet r), st, []) := by
  unfold azureSubnetGetOrCreateDefault azCatchCloud azClientGetSubnet
  simp only [azBind_run, azPure_run, h]
  rfl

/-- Every first call of the Azure get-or-create succeeds, and leaves a state
in which the default subnet is found. -/
theorem azureGetOrCreateDefault_first (σ : Nat → String) (st : AzureState) :
    ∃ r st1 tr,
      azureSubnetGetOrCreateDefault σ st = (.ok (azWrapSubnet r), st1, tr) ∧
      st1.subnets.find? (fun x => x.network = azDefaultNetworkName ∧
        x.name = azDefaultSubnetName) = some r := by
  cases h : st.subnets.find? (fun x => x.network = azDefaultNetworkName ∧
      x.name = azDefaultSubnetName) with
  | some r => exact ⟨r, st, [], azureGetOrCreateDefault_found σ st r h, h⟩
  | none =>
    by_cases hn : st.networks.contains azDefaultNetworkName = true
    · refine ⟨⟨azDefaultNetworkName, azDefaultSubnetName, none⟩,
        {st with subnets := ⟨azDefaultNetworkName, azDefaultSubnetName, none⟩ ::
          st.subnets.filter (fun x => ¬(x.network = azDefaultNetworkName ∧
            x.name = azDefaultSubnetName))},
        [.createSubnet azDefaultNetworkName azDefaultSubnetName], ?_, ?_⟩
      · unfold azureSubnetGetOrCreateDefault azCatchCloud azClientGetSubnet
          azClientGetNetwork azClientCreateSubnet
        simp only [azBind_run, azPure_run, h, hn, if_true]
        simp [azBind_run, azPure_run]
      · simp [List.find?]
    · refine ⟨⟨azDefaultNetworkName, azDefaultSubnetName, none⟩,
        {st with
          networks := azDefaultNetworkName ::
            st.networks.filter (fun x => x ≠ azDefaultNetworkName),
          subnets := ⟨azDefaultNetworkName, azDefaultSubnetName, none⟩ ::
            st.subnets.filter (fun x => ¬(x.network = azDefaultNetworkName ∧
              x.name = azDefaultSubnetName))},
        [.createNetwork azDefaultNetworkName,
         .createSubnet azDefaultNetworkName azDefaultSubnetName], ?_, ?_⟩
      · unfold azureSubnetGetOrCreateDefault azCatchCloud azClientGetSubnet
          azClientGetNetwork azureNetworkCreate azClientCreateNetwork
          azClientCreateSubnet
        simp only [azBind_run, azPure_run, h, hn, if_false]
        simp [azBind_run, azPure_run, azClientGetNetwork]
      · simp [List.find?]

/-- When a subnet named after the library default exists, the OpenStack
get-or-create returns the first such subnet and changes nothing. -/
theorem osGetOrCreateDefault_found (valid : String → Bool) (st : OSState)
    (s1 : OSSubnet) (rest : List OSSubnet)
    (hf : st.subnets.filter (fun x => x.name = osDefaultSubnetName) =
      s1 :: rest) :
    osSubnetGetOrCreateDefault valid st = (.ok (some s1), st, []) := by
  unfold osSubnetGetOrCreateDefault osSubnetFind
  simp only [osBind_run, osPure_run, hf]
  rfl

/-- Every run of the OpenStack get-or-create either raises, or returns a
subnet that heads the default-named filter of the resulting state. -/
theorem osGetOrCreateDefault_shape (valid : String → Bool) (st : OSState) :
    (∃ e, (osSubnetGetOrCreateDefault valid st).1 = .error e) ∨
    (∃ s1 rest, (osSubnetGetOrCreateDefault valid st).1 = .ok (some s1) ∧
      ((osSubnetGetOrCreateDefault valid st).2.1).subnets.filter
        (fun x => x.name = osDefaultSubnetName) = s1 :: rest) := by
  cases hf : st.subnets.filter (fun x => x.name = osDefaultSubnetName) with
  | cons s rest =>
    right
    exact ⟨s, rest, by rw [osGetOrCreateDefault_found valid st s rest hf],
      by rw [osGetOrCreateDefault_found valid st s rest hf]; exact hf⟩
  | nil =>
    unfold osSubnetGetOrCreateDefault osSubnetFind osNetworkCreate
      osNetWrapperCreateSubnet osSubnetCreate osRouterCreate
      osGatewayGetOrCreate osAssertValidName osNeutronCreateNetwork
      osNeutronCreateSubnet osNeutronCreateRouter osRouterAttachSubnet
      osRouterAttachGateway
    simp only [osBind_run, osPure_run, hf]
    by_cases hv1 : valid osDefaultNetworkName = true
    case neg =>
      left
      exact ⟨.generic ("Invalid name: " ++ osDefaultNetworkName), by simp [hv1]⟩
    by_cases hv2 : valid osDefaultSubnetName = true
    case neg =>
      left
      exact ⟨.generic ("Invalid name: " ++ osDefaultSubnetName),
        by simp [hv1, hv2]⟩
    by_cases hv3 : valid osDefaultRouterName = true
    case neg =>
      left
      exact ⟨.generic ("Invalid name: " ++ osDefaultRouterName),
        by simp [hv1, hv2, hv3]⟩
    by_cases hv4 : valid osDefaultGatewayName = true
    case neg =>
      left
      exact ⟨.generic ("Invalid name: " ++ osDefaultGatewayName),
        by simp [hv1, hv2, hv3, hv4]⟩
    cases hg : (st.networks ++
        ([⟨"network-" ++ toString st.nextId, osDefaultNetworkName, false⟩] :
          List OSNet)).find? (fun n => n.external) with
    | none => left; exact ⟨.attributeError, by simp [hv1, hv2, hv3, hv4, hg]⟩
    | some g =>
      right
      refine ⟨⟨"subnet-" ++ toString (st.nextId + 1), osDefaultSubnetName,
        "network-" ++ toString st.nextId⟩, [], ?_, ?_⟩
      · simp [hv1, hv2, hv3, hv4, hg]
      · simp only [hv1, hv2, hv3, hv4, hg, if_true]
        simp [List.filter_append, hf]

/-- C8 (Azure and OpenStack): two sequential get-or-create-default-subnet
calls return the same subnet, and the second call finds the existing default,
mutating nothing and making no provider call.  The OpenStack clause is
conditional on the first call having succeeded (it fails when, e.g., no
external network exists for the gateway step). -/
theorem c8_default_subnet_idempotent (σ σ2 : Nat → String) (st : AzureState)
    (valid : String → Bool) (ost : OSState) (s1 : OSSubnet)
    (h1 : (osSubnetGetOrCreateDefault valid ost).1 = .ok (some s1)) :
    (∃ s, (azureSubnetGetOrCreateDefault σ st).1 = .ok s ∧
      azureSubnetGetOrCreateDefault σ2
          ((azureSubnetGetOrCreateDefault σ st).2.1) =
        (.ok s, (azureSubnetGetOrCreateDefault σ st).2.1, [])) ∧
    osSubnetGetOrCreateDefault valid
        ((osSubnetGetOrCreateDefault valid ost).2.1) =
      (.ok (some s1), (osSubnetGetOrCreateDefault valid ost).2.1, []) := by
  constructor
  · obtain ⟨r, st1, tr, he, hf⟩ := azureGetOrCreateDefault_first σ st
    refine ⟨azWrapSubnet r, ?_, ?_⟩
    · rw [he]
    · rw [he]
      exact azureGetOrCreateDefault_found σ2 st1 r hf
  · obtain hsh := osGetOrCreateDefault_shape valid ost
    rcases hsh with ⟨e, he⟩ | ⟨s1b, rest, he, hf⟩
    · rw [he] at h1
      cases h1
    · rw [he] at h1
      have hss : s1b = s1 := by
        injection h1 with h2
        injection h2
      subst hss
      exact osGetOrCreateDefault_found valid _ s1b rest hf

/-- C8 witness at a concrete input: an empty Azure backend; an OpenStack
backend with one external network (so the gateway step succeeds) and no
default subnet, on which the first call creates
`subnet-1` under `network-0`. -/
theorem c8_witness :
    ((osSubnetGetOrCreateDefault (fun _ => true)
        ⟨[], [], [], [⟨"ext-net", "public", true⟩], [], [], 0⟩).1 =
      .ok (some ⟨"subnet-1", osDefaultSubnetName, "network-0"⟩)) ∧
    ((∃ s, (azureSubnetGetOrCreateDefault (fun _ => "abc123")
        ⟨[], [], [], [], [], [], [], [], [], 0⟩).1 = .ok s ∧
      azureSubnetGetOrCreateDefault (fun _ => "abc123")
          ((azureSubnetGetOrCreateDefault (fun _ => "abc123")
            ⟨[], [], [], [], [], [], [], [], [], 0⟩).2.1) =
        (.ok s, (azureSubnetGetOrCreateDefault (fun _ => "abc123")
          ⟨[], [], [], [], [], [], [], [], [], 0⟩).2.1, [])) ∧
    osSubnetGetOrCreateDefault (fun _ => true)
        ((osSubnetGetOrCreateDefault (fun _ => true)
          ⟨[], [], [], [⟨"ext-net", "public", true⟩], [], [], 0⟩).2.1) =
      (.ok (some ⟨"subnet-1", osDefaultSubnetName, "network-0"⟩),
       (osSubnetGetOrCreateDefault (fun _ => true)
         ⟨[], [], [], [⟨"ext-net", "public", true⟩], [], [], 0⟩).2.1, [])) :=
  ⟨by decide,
   c8_default_subnet_idempotent (fun _ => "abc123") (fun _ => "abc123")
     ⟨[], [], [], [], [], [], [], [], [], 0⟩ (fun _ => true)
     ⟨[], [], [], [⟨"ext-net", "public", true⟩], [], [], 0⟩
     ⟨"subnet-1", osDefaultSubnetName, "network-0"⟩ (by decide)⟩

/-! ## Trace machinery for the instance-creation claims -/

/-- A property of every traced call is preserved through a bind when both
sides produce only calls satisfying it. -/
theorem azBind_events {α β : Type} (m : AzM α) (f : α → AzM β)
    (st : AzureState) (P : AzCall → Prop)
    (hm : ∀ e ∈ (m st).2.2, P e)
    (hf : ∀ a st1, ∀ e ∈ (f a st1).2.2, P e) :
    ∀ e ∈ ((m >>= f) st).2.2, P e := by
  rw [azBind_run]
  rcases h : m st with ⟨r, st1, tr⟩
  rw [h] at hm
  simp only at hm
  cases r with
  | ok a =>
    intro e he
    simp only at he
    rcases List.mem_append.mp he with h1 | h2
    · exact hm e h1
    · exact hf a st1 e h2
  | error ex =>
    intro e he
    exact hm e he

/-- `AzureImageService.get` computed: always succeeds with the lookup
result. -/
theorem azureImageGet_run (s : String) (st : AzureState) :
    azureImageGet s st = (.ok (st.images.find? (fun i => i.id = s)), st, []) := by
  unfold azureImageGet azCatchCloud azClientGetImage
  cases h : st.images.find? (fun i => i.id = s) <;>
    simp [h, azBind_run, azPure_run]

/-- `AzureSnapshotService.get` computed. -/
theorem azureSnapshotGet_run (s : String) (st : AzureState) :
    azureSnapshotGet s st =
      (.ok ((st.snapshots.find? (fun x => x.name = s)).map azWrapSnap), st, []) := by
  unfold azureSnapshotGet azCatchCloud azClientGetSnapshot
  cases h : st.snapshots.find? (fun x => x.name = s) <;>
    simp [h, azBind_run, azPure_run]

/-- `AzureSecurityGroupService.get` computed. -/
theorem azureSecurityGroupGet_run (s : String) (st : AzureState) :
    azureSecurityGroupGet s st =
      (.ok (st.sgs.find? (fun g => g.name = s)), st, []) := by
  unfold azureSecurityGroupGet azCatchCloud azClientGetSecurityGroup
  cases h : st.sgs.find? (fun g => g.name = s) <;>
    simp [h, azBind_run, azPure_run]

/-- `AzureVolumeService.get` computed. -/
theorem azureVolumeGet_run (id : String) (st : AzureState) :
    azureVolumeGet id st =
      if id ∈ st.diskFaults then
        (.error (.otherError "provider failure"), st, [])
      else
        (.ok ((st.disks.find? (fun d => d.name = id)).map azWrapDisk), st, []) := by
  unfold azureVolumeGet azCatchCloud azClientGetDisk
  by_cases hf : id ∈ st.diskFaults
  · simp [hf, azBind_run]
  · cases h : st.disks.find? (fun d => d.name = id) <;>
      simp [hf, h, azBind_run, azPure_run]

/-- `azure_client.get_disk` is a read: it never records a provider
mutation. -/
theorem azClientGetDisk_trace (id : String) (st : AzureState) :
    (azClientGetDisk id st).2.2 = [] := by
  unfold azClientGetDisk
  by_cases hf : id ∈ st.diskFaults
  · simp [hf]
  · cases h : st.disks.find? (fun d => d.name = id) <;> simp [hf, h]

/-- Volume creation makes only disk-creation calls: never a VM, NIC or
security-group call. -/
theorem azureVolumeCreate_events (σ : Nat → String) (nm : String)
    (sz : Option Nat) (zn : Option (StrOr String))
    (snap : Option (StrOr AzSnapshot)) (desc : Option String)
    (st : AzureState) :
    ∀ e ∈ (azureVolumeCreate σ nm sz zn snap desc st).2.2,
      azCallIsCreateVm e = false ∧ azCallIsCreateNic e = false ∧
        azCallIsCreateSG e = false := by
  unfold azureVolumeCreate
  refine azBind_events _ _ _ _ ?_ ?_
  · unfold azureResolveSnapshotArg
    cases snap with
    | none => simp [azPure_run]
    | some so =>
      cases so with
      | str s2 => simp [azureSnapshotGet_run]
      | obj o => simp [azPure_run]
  · intro a st1
    refine azBind_events _ _ _ _ ?_ ?_
    · simp [azFreshSuffix]
    · intro b st2
      cases a with
      | none =>
        refine azBind_events _ _ _ _ ?_ ?_
        · simp [azClientCreateEmptyDisk, azCallIsCreateVm,
            azCallIsCreateNic, azCallIsCreateSG]
        · intro c st3
          refine azBind_events _ _ _ _ ?_ ?_
          · simp [azClientGetDisk_trace]
          · intro d st4
            simp [azPure_run]
      | some sp =>
        refine azBind_events _ _ _ _ ?_ ?_
        · simp [azClientCreateSnapshotDisk, azCallIsCreateVm,
            azCallIsCreateNic, azCallIsCreateSG]
        · intro c st3
          refine azBind_events _ _ _ _ ?_ ?_
          · simp [azClientGetDisk_trace]
          · intro d st4
            simp [azPure_run]

/-- Attaching a volume makes only a disk-tag-update call. -/
theorem azureAttachVolume_events (acc : AzBDMAcc) (v : AzVolume)
    (dot : Option Bool) (st : AzureState) :
    ∀ e ∈ (azureAttachVolume acc v dot st).2.2,
      azCallIsCreateVm e = false ∧ azCallIsCreateNic e = false ∧
        azCallIsCreateSG e = false := by
  unfold azureAttachVolume
  refine azBind_events _ _ _ _ ?_ ?_
  · unfold azClientUpdateDiskTags
    by_cases h : st.disks.any (fun d => d.name = v.id) = true <;>
      simp [h, azCallIsCreateVm, azCallIsCreateNic, azCallIsCreateSG]
  · intro a st1
    simp [azPure_run]

/-- One block-device step makes only disk calls. -/
theorem azureBDMStep_events (σ : Nat → String) (nm : String)
    (z : Option String) (acc : AzBDMAcc) (d : AzBlockDevice)
    (st : AzureState) :
    ∀ e ∈ (azureBDMStep σ nm z acc d st).2.2,
      azCallIsCreateVm e = false ∧ azCallIsCreateNic e = false ∧
        azCallIsCreateSG e = false := by
  unfold azureBDMStep
  by_cases hv : d.isVolume = true
  case neg => simp [hv, azPure_run]
  by_cases hr : d.isRoot = true
  case pos => simp [hv, hr, azPure_run]
  simp only [hv, hr, if_true, if_false, Bool.false_eq_true]
  cases hs : d.source with
  | snapshot s =>
    refine azBind_events _ _ _ _ ?_ ?_
    · exact azureVolumeCreate_events σ ("from-snap-" ++ s.id) none none
        (some (.obj s)) none st
    · intro a st1
      refine azBind_events _ _ _ _ ?_ ?_
      · exact azureAttachVolume_events _ _ _ _
      · intro b st2
        simp [azBind_run, azPure_run]
  | volume v =>
    refine azBind_events _ _ _ _ ?_ ?_
    · exact azureAttachVolume_events _ _ _ _
    · intro a st1
      simp [azBind_run, azPure_run]
  | machineImage m => simp [azBind_run, azPure_run]
  | blank =>
    cases z with
    | none => simp [azThrow, azBind_run]
    | some zz =>
      refine azBind_events _ _ _ _ ?_ ?_
      · simp [azFreshSuffix]
      · intro a st1
        refine azBind_events _ _ _ _ ?_ ?_
        · exact azureVolumeCreate_events _ _ _ _ _ _ _
        · intro b st2
          refine azBind_events _ _ _ _ ?_ ?_
          · exact azureAttachVolume_events _ _ _ _
          · intro c st3
            simp [azBind_run, azPure_run]

/-- Block-device processing makes only disk calls. -/
theorem azureProcessBDM_events (σ : Nat → String) (cfg : AzLaunchConfig)
    (nm : String) (z : Option String) (st : AzureState) :
    ∀ e ∈ (azureProcessBDM σ cfg nm z st).2.2,
      azCallIsCreateVm e = false ∧ azCallIsCreateNic e = false ∧
        azCallIsCreateSG e = false := by
  unfold azureProcessBDM
  refine azBind_events _ _ _ _ ?_ ?_
  · have hfold : ∀ (l : List AzBlockDevice) (acc : AzBDMAcc) (st2 : AzureState),
        ∀ e ∈ (List.foldlM (azureBDMStep σ nm z) acc l st2).2.2,
          azCallIsCreateVm e = false ∧ azCallIsCreateNic e = false ∧
            azCallIsCreateSG e = false := by
      intro l
      induction l with
      | nil => intro acc st2; simp [List.foldlM, azPure_run]
      | cons d rest ih =>
        intro acc st2
        show ∀ e ∈ ((azureBDMStep σ nm z acc d >>=
          fun a => List.foldlM (azureBDMStep σ nm z) a rest) st2).2.2, _
        refine azBind_events _ _ _ _ ?_ ?_
        · exact azureBDMStep_events _ _ _ _ _ _
        · intro a st3
          exact ih a st3
    exact hfold cfg.blockDevices _ st
  · intro a st1
    simp [azPure_run]

/-- `azure_client.get_vm` is a read: no provider mutation. -/
theorem azClientGetVm_trace (n : String) (st : AzureState) :
    (azClientGetVm n st).2.2 = [] := by
  unfold azClientGetVm
  cases h : st.vms.find? (fun v => v.name = n) <;> simp [h]

/-- The Name tag of the assembled VM payload is the requested name, with or
without the Key_Pair tag update. -/
theorem tagGet_vm_tags (name v : String) :
    tagGet (tagUpdate [("Name", name)] "Key_Pair" v) "Name" = some name := rfl

/-- Every VM or NIC creation call made by the create tail carries the
resolved values: the NIC call uses the instance name, the resolved subnet
resource id and the resolved security-group id; the VM call uses the
instance name, the resolved zone (region when absent) as location, and
stores the requested name in the Name tag. -/
theorem azureInstanceCreateFinish_events (name iname : String)
    (kpR : Option AzKeyPair) (imgR : Option AzImage)
    (isz rid : String) (zid : Option String) (gid : Option String)
    (ud : Option String) (disks : Option (List AzDataDisk))
    (rds : Option Nat) (st : AzureState) :
    ∀ e ∈ (azureInstanceCreateFinish name iname kpR imgR isz rid zid gid
        ud disks rds st).2.2,
      (azCallIsCreateVm e = true →
        e = .createVm iname (zid.getD azureRegionName) (some name)) ∧
      (azCallIsCreateNic e = true →
        e = .createNic (iname ++ "_nic") rid gid) := by
  unfold azureInstanceCreateFinish
  refine azBind_events _ _ _ _ ?_ ?_
  · intro e he
    unfold azClientCreateNic at he
    simp only [List.mem_singleton] at he
    subst he
    refine ⟨fun hv => ?_, fun _ => rfl⟩
    simp [azCallIsCreateVm] at hv
  · intro nic st2
    cases kpR with
    | none => simp [azBind_run, azThrow]
    | some k =>
      refine azBind_events _ _ _ _ ?_ ?_
      · simp [azPure_run]
      · intro kd st3
        cases imgR with
        | none => simp [azBind_run, azThrow]
        | some im =>
          refine azBind_events _ _ _ _ ?_ ?_
          · simp [azPure_run]
          · intro ir st4
            refine azBind_events _ _ _ _ ?_ ?_
            · intro e he
              unfold azClientCreateVm at he
              simp only [List.mem_singleton] at he
              subst he
              refine ⟨fun _ => ?_, fun hn => ?_⟩
              · simp [tagGet_vm_tags]
              · simp [azCallIsCreateNic] at hn
            · intro u st5
              intro e he
              rw [azClientGetVm_trace] at he
              cases he

/-- Every VM or NIC creation call made by the create tail carries the
resolved values, as in `azureInstanceCreateFinish_events`. -/
theorem azureInstanceCreateTail_events (σ : Nat → String)
    (name iname : String) (kpR : Option AzKeyPair) (imgR : Option AzImage)
    (isz rid : String) (zid : Option String) (gid : Option String)
    (ud : Option String) (cfg : Option AzLaunchConfig) (st : AzureState) :
    ∀ e ∈ (azureInstanceCreateTail σ name iname kpR imgR isz rid zid gid
        ud cfg st).2.2,
      (azCallIsCreateVm e = true →
        e = .createVm iname (zid.getD azureRegionName) (some name)) ∧
      (azCallIsCreateNic e = true →
        e = .createNic (iname ++ "_nic") rid gid) := by
  unfold azureInstanceCreateTail
  cases cfg with
  | none =>
    refine azBind_events _ _ _ _ ?_ ?_
    · simp [azPure_run]
    · intro dr st1
      exact azureInstanceCreateFinish_events _ _ _ _ _ _ _ _ _ _ _ _
  | some c =>
    refine azBind_events _ _ _ _ ?_ ?_
    · intro e he
      have h2 := azureProcessBDM_events σ c name zid st e he
      refine ⟨fun hv => ?_, fun hn => ?_⟩
      · rw [h2.1] at hv
        cases hv
      · rw [h2.2.1] at hn
        cases hn
    · intro a st1
      refine azBind_events _ _ _ _ ?_ ?_
      · simp [azPure_run]
      · intro dr st2
        exact azureInstanceCreateFinish_events _ _ _ _ _ _ _ _ _ _ _ _

/-- Variant of `azBind_events` that exposes the first computation's result
and intermediate state to the continuation side. -/
theorem azBind_events_ok {α β : Type} (m : AzM α) (f : α → AzM β)
    (st : AzureState) (P : AzCall → Prop)
    (hm : ∀ e ∈ (m st).2.2, P e)
    (hf : ∀ a st1 tr1, m st = (.ok a, st1, tr1) →
      ∀ e ∈ (f a st1).2.2, P e) :
    ∀ e ∈ ((m >>= f) st).2.2, P e := by
  rw [azBind_run]
  rcases h : m st with ⟨r, st1, tr⟩
  rw [h] at hm
  simp only at hm
  cases r with
  | ok a =>
    intro e he
    simp only at he
    rcases List.mem_append.mp he with h1 | h2
    · exact hm e h1
    · exact hf a st1 tr h e h2
  | error ex =>
    intro e he
    exact hm e he

/-- Mapping a function that fixes every member of a list is the
identity. -/
theorem listMapIdOfMem {α : Type} (l : List α) (f : α → α)
    (h : ∀ x ∈ l, f x = x) : l.map f = l := by
  induction l with
  | nil => rfl
  | cons a t ih =>
    simp only [List.map_cons, h a (by simp)]
    rw [ih (fun x hx => h x (by simp [hx]))]

/-- The add-rule loop over resolved group objects: the target group (at the
head of the backend list, not shadowed in the remainder) accumulates the
concatenation of the source groups' rules; one add-rule call is traced per
source group. -/
theorem azureAddRulesLoop_objs_run (l : List AzSG) (tname : String)
    (accSG : AzSG) (rest : List AzSG) (st : AzureState)
    (hsgs : st.sgs = accSG :: rest) (hname : accSG.name = tname)
    (hrest : ∀ x ∈ rest, ¬(x.name = tname)) :
    azureAddRulesLoop tname (l.map StrOr.obj) st =
      (.ok (),
       {st with sgs :=
         {accSG with rules := accSG.rules ++ (l.map AzSG.rules).flatten} :: rest},
       l.map (fun x => AzCall.sgAddRule tname x.name)) := by
  induction l generalizing accSG st with
  | nil =>
    obtain ⟨n1, n2, n3, n4, n5, n6, n7, n8, n9, n10⟩ := st
    simp only at hsgs
    subst hsgs
    simp [azureAddRulesLoop, azPure_run]
  | cons g t ih =>
    obtain ⟨n1, n2, n3, n4, n5, n6, n7, n8, n9, n10⟩ := st
    simp only at hsgs
    subst hsgs
    show (azureSGAddRuleRef tname (.obj g) >>= fun _ =>
      azureAddRulesLoop tname (t.map StrOr.obj)) _ = _
    rw [azBind_run]
    have hstep : azureSGAddRuleRef tname (.obj g)
        ⟨n1, n2, accSG :: rest, n4, n5, n6, n7, n8, n9, n10⟩ =
        (.ok (),
         ⟨n1, n2, {accSG with rules := accSG.rules ++ g.rules} :: rest,
          n4, n5, n6, n7, n8, n9, n10⟩,
         [.sgAddRule tname g.name]) := by
      show ((.ok (),
        (⟨n1, n2, (accSG :: rest).map (fun x =>
          if x.name = tname then {x with rules := x.rules ++ g.rules} else x),
         n4, n5, n6, n7, n8, n9, n10⟩ : AzureState),
        [AzCall.sgAddRule tname g.name]) :
        Except Err Unit × AzureState × List AzCall) = _
      rw [List.map_cons, if_pos hname,
        listMapIdOfMem rest _ (fun x hx => if_neg (hrest x hx))]
    rw [hstep]
    have ih2 := ih {accSG with rules := accSG.rules ++ g.rules}
      ⟨n1, n2, {accSG with rules := accSG.rules ++ g.rules} :: rest,
       n4, n5, n6, n7, n8, n9, n10⟩ rfl hname
    simp only [ih2]
    simp [List.append_assoc]

/-- `azureResolveSecurityGroups` with no groups requested. -/
theorem azureResolveSecurityGroups_none_run (nm : String) (st : AzureState) :
    azureResolveSecurityGroups nm none st = (.ok none, st, []) := rfl

/-- `azureResolveSecurityGroups` with exactly one group object: the group's
resource id passes through, nothing is created. -/
theorem azureResolveSecurityGroups_single_run (nm : String) (g : AzSG)
    (st : AzureState) :
    azureResolveSecurityGroups nm (some (.objs [g])) st =
      (.ok (some g.resourceId), st, []) := rfl

/-- `azureResolveSecurityGroups` with two or more group objects: exactly one
merge group named `<nm>-sg` is created, it imports the concatenation of all
requested groups' rules, shadows any same-named group, and its resource id
is returned; the trace is one create call followed by one add-rule call per
requested group. -/
theorem azureResolveSecurityGroups_merge_run (nm : String) (g1 g2 : AzSG)
    (gs : List AzSG) (st : AzureState) :
    azureResolveSecurityGroups nm (some (.objs (g1 :: g2 :: gs))) st =
      (.ok (some (azMkSGResourceId (nm ++ "-sg"))),
       {st with sgs :=
         ⟨nm ++ "-sg", azMkSGResourceId (nm ++ "-sg"),
          ((g1 :: g2 :: gs).map AzSG.rules).flatten,
          [("Name", nm ++ "-sg"),
           ("Description", "Merge security groups " ++
             String.intercalate "," ((g1 :: g2 :: gs).map (fun x => x.name)))]⟩ ::
         st.sgs.filter (fun x => x.name ≠ nm ++ "-sg")},
       .createSecurityGroup (nm ++ "-sg") ::
         (g1 :: g2 :: gs).map (fun x => AzCall.sgAddRule (nm ++ "-sg") x.name)) := by
  unfold azureResolveSecurityGroups azureSecurityGroupCreate
    azClientCreateSecurityGroup
  simp only [azBind_run, azPure_run]
  have hlen : 1 < ((g1 :: g2 :: gs).map StrOr.obj).length := by
    simp [List.length_map]
  rw [if_pos hlen]
  have hloop := azureAddRulesLoop_objs_run (g1 :: g2 :: gs) (nm ++ "-sg")
    ⟨nm ++ "-sg", azMkSGResourceId (nm ++ "-sg"), [],
     [("Name", nm ++ "-sg"),
      ("Description", "Merge security groups " ++
        String.intercalate "," ((g1 :: g2 :: gs).map (fun x => x.name)))]⟩
    (st.sgs.filter (fun x => x.name ≠ nm ++ "-sg"))
    {st with sgs :=
      ⟨nm ++ "-sg", azMkSGResourceId (nm ++ "-sg"), [],
       [("Name", nm ++ "-sg"),
        ("Description", "Merge security groups " ++
          String.intercalate "," ((g1 :: g2 :: gs).map (fun x => x.name)))]⟩ ::
      st.sgs.filter (fun x => x.name ≠ nm ++ "-sg")}
    rfl rfl
    (fun x hx => by
      have h2 := List.of_mem_filter hx
      simpa using h2)
  simp only [azBind_run]
  simp only [hloop]
  simp [azPure_run]

/-- Any successful `_resolve_launch_options` with a resolved subnet returns
the subnet's resource id and the subnet's zone — independently of the
requested zone. -/
theorem azureResolveLaunchOptions_ok (nm : String) (sn : AzSubnet)
    (z : Option String) (sgs : Option AzSGArg) (st : AzureState)
    (t : String × Option String × Option String)
    (h : (azureResolveLaunchOptions nm (some sn) z sgs st).1 = .ok t) :
    t.1 = sn.resourceId ∧ t.2.1 = sn.zoneId := by
  unfold azureResolveLaunchOptions at h
  rw [azBind_run] at h
  rcases hm : azureResolveSecurityGroups nm sgs st with ⟨r, st1, tr⟩
  rw [hm] at h
  cases r with
  | error e => simp at h
  | ok gid =>
    simp only [azPure_run] at h
    cases h
    exact ⟨rfl, rfl⟩

/-- The security-group resolution makes neither VM nor NIC calls. -/
theorem azureResolveSecurityGroups_events (nm : String)
    (sgs : Option AzSGArg) (st : AzureState) :
    ∀ e ∈ (azureResolveSecurityGroups nm sgs st).2.2,
      azCallIsCreateVm e = false ∧ azCallIsCreateNic e = false := by
  have hloop : ∀ (l : List (StrOr AzSG)) (tn : String) (st2 : AzureState),
      ∀ e ∈ (azureAddRulesLoop tn l st2).2.2,
        azCallIsCreateVm e = false ∧ azCallIsCreateNic e = false := by
    intro l
    induction l with
    | nil => intro tn st2; simp [azureAddRulesLoop, azPure_run]
    | cons r rs ih =>
      intro tn st2
      show ∀ e ∈ ((azureSGAddRuleRef tn r >>= fun _ =>
        azureAddRulesLoop tn rs) st2).2.2, _
      refine azBind_events _ _ _ _ ?_ ?_
      · cases r with
        | obj g =>
          simp [azureSGAddRuleRef, azureSGAddRule, azCallIsCreateVm,
            azCallIsCreateNic]
        | str s2 =>
          unfold azureSGAddRuleRef
          refine azBind_events _ _ _ _ ?_ ?_
          · simp [azureSecurityGroupGet_run]
          · intro a st3
            cases a with
            | none => simp [azThrow]
            | some gg =>
              simp [azureSGAddRule, azCallIsCreateVm, azCallIsCreateNic]
      · intro a st3
        exact ih tn st3
  unfold azureResolveSecurityGroups
  cases sgs with
  | none => simp [azBind_run, azPure_run]
  | some arg =>
    cases arg with
    | objs l =>
      cases l with
      | nil => simp [azBind_run, azPure_run]
      | cons g gs =>
        refine azBind_events _ _ _ _ ?_ ?_
        · simp [azPure_run]
        · intro a st1
          cases a with
          | none => simp [azPure_run]
          | some trip =>
            obtain ⟨ids2, refs, frid⟩ := trip
            simp only []
            by_cases hlen : refs.length > 1
            · rw [if_pos hlen]
              refine azBind_events _ _ _ _ ?_ ?_
              · simp [azureSecurityGroupCreate, azClientCreateSecurityGroup,
                  azBind_run, azPure_run, azCallIsCreateVm, azCallIsCreateNic]
              · intro b st2
                refine azBind_events _ _ _ _ ?_ ?_
                · exact hloop _ _ _
                · intro c st3
                  simp [azPure_run]
            · rw [if_neg hlen]
              simp [azPure_run]
    | ids l =>
      cases l with
      | nil => simp [azBind_run, azPure_run]
      | cons i is =>
        refine azBind_events _ _ _ _ ?_ ?_
        · simp [azureSecurityGroupGet_run]
        · intro a st1
          cases a with
          | none => simp [azThrow, azBind_run]
          | some s2 =>
            simp only [azBind_run, azPure_run]
            by_cases hlen : ((i :: is).map StrOr.str : List (StrOr AzSG)).length > 1
            · rw [if_pos hlen]
              refine azBind_events _ _ _ _ ?_ ?_
              · simp [azureSecurityGroupCreate, azClientCreateSecurityGroup,
                  azBind_run, azPure_run, azCallIsCreateVm, azCallIsCreateNic]
              · intro b st2
                refine azBind_events _ _ _ _ ?_ ?_
                · exact hloop _ _ _
                · intro c st3
                  simp [azPure_run]
            · rw [if_neg hlen]
              simp [azPure_run]

/-- Launch-option resolution makes neither VM nor NIC calls. -/
theorem azureResolveLaunchOptions_events (nm : String)
    (sn : Option AzSubnet) (z : Option String) (sgs : Option AzSGArg)
    (st : AzureState) :
    ∀ e ∈ (azureResolveLaunchOptions nm sn z sgs st).2.2,
      azCallIsCreateVm e = false ∧ azCallIsCreateNic e = false := by
  unfold azureResolveLaunchOptions
  refine azBind_events _ _ _ _ ?_ ?_
  · exact azureResolveSecurityGroups_events nm sgs st
  · intro a st1
    cases sn <;> simp [azPure_run, azThrow, azBind_run]

/-- Launch-option resolution with no security groups requested: the subnet
resource id and zone pass through, no group id, nothing happens. -/
theorem azureResolveLaunchOptions_none_run (nm : String) (sn : AzSubnet)
    (z : Option String) (st : AzureState) :
    azureResolveLaunchOptions nm (some sn) z none st =
      (.ok (sn.resourceId, sn.zoneId, none), st, []) := rfl

/-- Launch-option resolution with two or more group objects: the merge
group's resource id is attached, the zone is the subnet's zone. -/
theorem azureResolveLaunchOptions_merge_run (nm : String) (sn : AzSubnet)
    (z : Option String) (g1 g2 : AzSG) (gs : List AzSG) (st : AzureState) :
    azureResolveLaunchOptions nm (some sn) z
        (some (.objs (g1 :: g2 :: gs))) st =
      (.ok (sn.resourceId, sn.zoneId, some (azMkSGResourceId (nm ++ "-sg"))),
       {st with sgs :=
         ⟨nm ++ "-sg", azMkSGResourceId (nm ++ "-sg"),
          ((g1 :: g2 :: gs).map AzSG.rules).flatten,
          [("Name", nm ++ "-sg"),
           ("Description", "Merge security groups " ++
             String.intercalate "," ((g1 :: g2 :: gs).map (fun x => x.name)))]⟩ ::
         st.sgs.filter (fun x => x.name ≠ nm ++ "-sg")},
       .createSecurityGroup (nm ++ "-sg") ::
         (g1 :: g2 :: gs).map (fun x => AzCall.sgAddRule (nm ++ "-sg") x.name)) := by
  unfold azureResolveLaunchOptions
  rw [azBind_run]
  rw [azureResolveSecurityGroups_merge_run]
  simp [azPure_run]

/-- `AzureInstanceService.create` with object-valued key-pair, image and
subnet arguments, decomposed: one fresh suffix is drawn to build the native
instance name, then the launch options are resolved and the creation tail
runs. -/
theorem azureInstanceCreate_obj_run (σ : Nat → String) (name : String)
    (imgO : AzImage) (it : StrOr String) (sn : AzSubnet)
    (z : Option (StrOr String)) (kpO : AzKeyPair) (sgs : Option AzSGArg)
    (ud : Option String) (cfg : Option AzLaunchConfig) (st : AzureState) :
    azureInstanceCreate σ name (.obj imgO) it (some (.obj sn)) z
        (some (.obj kpO)) sgs ud cfg st =
      ((azureResolveLaunchOptions (name ++ "-" ++ σ st.fresh) (some sn)
          (match z with
           | some (.obj z1) => some z1
           | some (.str s) => some s
           | none => none) sgs >>=
        fun t => azureInstanceCreateTail σ name (name ++ "-" ++ σ st.fresh)
          (some kpO) (some imgO)
          (match it with | .obj t1 => t1 | .str s => s) t.1 t.2.1 t.2.2 ud cfg)
        {st with fresh := st.fresh + 1}) := rfl

/-- C5: whenever a subnet is resolved for an Azure instance creation, the
zone used for launch is the subnet's zone, overriding any explicitly
requested zone: launch-option resolution returns the subnet's zone whatever
zone was requested, and every virtual-machine creation call of an instance
create with a given subnet is placed at the subnet's zone (the region when
the subnet carries none), for every requested zone argument. -/
theorem c5_subnet_zone_overrides_requested (σ : Nat → String)
    (name : String) (imgO : AzImage) (it : StrOr String) (sn : AzSubnet)
    (z : Option (StrOr String)) (kpO : AzKeyPair) (sgs : Option AzSGArg)
    (ud : Option String) (cfg : Option AzLaunchConfig) (st : AzureState) :
    (∀ (nm2 : String) (sn2 : AzSubnet) (z2 : Option String)
       (sa : Option AzSGArg) (st2 : AzureState)
       (t : String × Option String × Option String),
       (azureResolveLaunchOptions nm2 (some sn2) z2 sa st2).1 = .ok t →
       t.2.1 = sn2.zoneId) ∧
    (∀ e ∈ (azureInstanceCreate σ name (.obj imgO) it (some (.obj sn)) z
        (some (.obj kpO)) sgs ud cfg st).2.2,
      azCallIsCreateVm e = true →
        ∃ inm, e = .createVm inm (sn.zoneId.getD azureRegionName)
          (some name)) := by
  constructor
  · intro nm2 sn2 z2 sa st2 t h
    exact (azureResolveLaunchOptions_ok nm2 sn2 z2 sa st2 t h).2
  · rw [azureInstanceCreate_obj_run]
    refine azBind_events_ok _ _ _ _ ?_ ?_
    · intro e he hv
      have h2 := azureResolveLaunchOptions_events _ _ _ _ _ e he
      rw [h2.1] at hv
      cases hv
    · intro t st1 tr1 hrun
      intro e he hv
      have h2 := azureInstanceCreateTail_events σ name _ (some kpO)
        (some imgO) _ t.1 t.2.1 t.2.2 ud cfg st1 e he
      have h3 := (azureResolveLaunchOptions_ok _ sn _ sgs _ t
        (by rw [hrun])).2
      refine ⟨name ++ "-" ++ σ st.fresh, ?_⟩
      rw [h2.1 hv, h3]

/-- C5 witness at a concrete input: the subnet carries zone `zone-2`, the
caller requests `zone-1`, and the virtual machine is created in `zone-2`. -/
theorem c5_witness :
    (AzCall.createVm "vm-abc123" "zone-2" (some "vm") ∈
      (azureInstanceCreate (fun _ => "abc123") "vm"
        (.obj ⟨"img1", "/images/img1"⟩) (.str "Basic_A2")
        (some (.obj ⟨"net|$|sub", "/net/net/subnets/sub", some "zone-2"⟩))
        (some (.str "zone-1")) (some (.obj ⟨"kp1", "ssh-rsa AAA", none⟩))
        none none none ⟨[], [], [], [], [], [], [], [], [], 0⟩).2.2) ∧
    ∃ inm, AzCall.createVm "vm-abc123" "zone-2" (some "vm") =
      .createVm inm ((some "zone-2" : Option String).getD azureRegionName)
        (some "vm") :=
  ⟨by decide,
   (c5_subnet_zone_overrides_requested (fun _ => "abc123") "vm"
     ⟨"img1", "/images/img1"⟩ (.str "Basic_A2")
     ⟨"net|$|sub", "/net/net/subnets/sub", some "zone-2"⟩
     (some (.str "zone-1")) ⟨"kp1", "ssh-rsa AAA", none⟩ none none none
     ⟨[], [], [], [], [], [], [], [], [], 0⟩).2 _ (by decide) (by decide)⟩

/-- The add-rule calls of the merge loop are never group creations. -/
theorem azFilterSGAddRule_nil (l : List AzSG) (a : String) :
    (l.map (fun x => AzCall.sgAddRule a x.name)).filter
      (fun e => azCallIsCreateSG e) = [] := by
  induction l with
  | nil => rfl
  | cons g t ih => simp [List.filter_cons, azCallIsCreateSG, ih]

/-- C4: requesting more than one security group for an Azure instance makes
the resolver create exactly one synthetically named derived group
(`<instance-name>-sg`) whose rule set is exactly the union of the rules of
all requested groups, its resource id is the resolved group id, and the
instance's network-interface creation attaches exactly that derived group's
resource id. -/
theorem c4_merged_security_group (σ : Nat → String) (nm name : String)
    (g1 g2 : AzSG) (gs : List AzSG) (st : AzureState) (imgO : AzImage)
    (it : StrOr String) (sn : AzSubnet) (z : Option (StrOr String))
    (kpO : AzKeyPair) (ud : Option String) (cfg : Option AzLaunchConfig)
    (st0 : AzureState) :
    ((azureResolveSecurityGroups nm (some (.objs (g1 :: g2 :: gs))) st).1 =
      .ok (some (azMkSGResourceId (nm ++ "-sg")))) ∧
    ((azureResolveSecurityGroups nm
        (some (.objs (g1 :: g2 :: gs))) st).2.2.filter
          (fun e => azCallIsCreateSG e) =
      [.createSecurityGroup (nm ++ "-sg")]) ∧
    (∃ drv : AzSG,
      (azureResolveSecurityGroups nm
          (some (.objs (g1 :: g2 :: gs))) st).2.1.sgs.find?
            (fun x => x.name = nm ++ "-sg") = some drv ∧
      drv.resourceId = azMkSGResourceId (nm ++ "-sg") ∧
      (∀ r, r ∈ drv.rules ↔ ∃ g ∈ g1 :: g2 :: gs, r ∈ g.rules)) ∧
    (∀ e ∈ (azureInstanceCreate σ name (.obj imgO) it (some (.obj sn)) z
        (some (.obj kpO)) (some (.objs (g1 :: g2 :: gs))) ud cfg st0).2.2,
      azCallIsCreateNic e = true →
        e = .createNic ((name ++ "-" ++ σ st0.fresh) ++ "_nic") sn.resourceId
          (some (azMkSGResourceId ((name ++ "-" ++ σ st0.fresh) ++ "-sg")))) := by
  refine ⟨?_, ?_, ?_, ?_⟩
  · rw [azureResolveSecurityGroups_merge_run]
  · rw [azureResolveSecurityGroups_merge_run]
    simp only [List.filter_cons]
    rw [azFilterSGAddRule_nil]
    simp [azCallIsCreateSG]
  · rw [azureResolveSecurityGroups_merge_run]
    refine ⟨⟨nm ++ "-sg", azMkSGResourceId (nm ++ "-sg"),
      ((g1 :: g2 :: gs).map AzSG.rules).flatten,
      [("Name", nm ++ "-sg"),
       ("Description", "Merge security groups " ++
         String.intercalate "," ((g1 :: g2 :: gs).map (fun x => x.name)))]⟩,
      ?_, rfl, ?_⟩
    · simp only
      rw [List.find?_cons_of_pos _ (by simp)]
    · intro r
      simp only [List.mem_flatten, List.mem_map]
      constructor
      · rintro ⟨l, ⟨g, hg, rfl⟩, hr⟩
        exact ⟨g, hg, hr⟩
      · rintro ⟨g, hg, hr⟩
        exact ⟨g.rules, ⟨g, hg, rfl⟩, hr⟩
  · rw [azureInstanceCreate_obj_run]
    refine azBind_events_ok _ _ _ _ ?_ ?_
    · intro e he hn
      have h2 := azureResolveLaunchOptions_events _ _ _ _ _ e he
      rw [h2.2] at hn
      cases hn
    · intro t st1 tr1 hrun
      intro e he hn
      rw [azureResolveLaunchOptions_merge_run] at hrun
      have h1 := congrArg Prod.fst hrun
      simp only at h1
      injection h1 with h1
      have h2 := azureInstanceCreateTail_events σ name _ (some kpO)
        (some imgO) _ t.1 t.2.1 t.2.2 ud cfg st1 e he
      rw [h2.2 hn, ← h1]

/-- C4 witness at a concrete input: groups `A` (TCP/22) and `B` (TCP/80)
are merged into one derived group `web-sg` carrying both rules, and a
concrete instance create attaches `/nsg/vm-abc123-sg` to its network
interface. -/
theorem c4_witness :
    ((azureResolveSecurityGroups "web"
        (some (.objs [⟨"A", "/nsg/A", [⟨"tcp", 22⟩], []⟩,
          ⟨"B", "/nsg/B", [⟨"tcp", 80⟩], []⟩]))
        ⟨[], [], [⟨"A", "/nsg/A", [⟨"tcp", 22⟩], []⟩,
          ⟨"B", "/nsg/B", [⟨"tcp", 80⟩], []⟩], [], [], [], [], [], [], 0⟩).1 =
      .ok (some (azMkSGResourceId "web-sg"))) ∧
    (AzCall.createNic "vm-abc123_nic" "/net/net/subnets/sub"
        (some (azMkSGResourceId "vm-abc123-sg")) ∈
      (azureInstanceCreate (fun _ => "abc123") "vm"
        (.obj ⟨"img1", "/images/img1"⟩) (.str "Basic_A2")
        (some (.obj ⟨"net|$|sub", "/net/net/subnets/sub", some "zone-2"⟩))
        none (some (.obj ⟨"kp1", "ssh-rsa AAA", none⟩))
        (some (.objs [⟨"A", "/nsg/A", [⟨"tcp", 22⟩], []⟩,
          ⟨"B", "/nsg/B", [⟨"tcp", 80⟩], []⟩])) none none
        ⟨[], [], [], [], [], [], [], [], [], 0⟩).2.2) ∧
    AzCall.createNic "vm-abc123_nic" "/net/net/subnets/sub"
        (some (azMkSGResourceId "vm-abc123-sg")) =
      .createNic (("vm" ++ "-" ++ "abc123") ++ "_nic") "/net/net/subnets/sub"
        (some (azMkSGResourceId (("vm" ++ "-" ++ "abc123") ++ "-sg"))) :=
  ⟨(c4_merged_security_group (fun _ => "abc123") "web" "vm"
      ⟨"A", "/nsg/A", [⟨"tcp", 22⟩], []⟩ ⟨"B", "/nsg/B", [⟨"tcp", 80⟩], []⟩ []
      ⟨[], [], [⟨"A", "/nsg/A", [⟨"tcp", 22⟩], []⟩,
        ⟨"B", "/nsg/B", [⟨"tcp", 80⟩], []⟩], [], [], [], [], [], [], 0⟩
      ⟨"img1", "/images/img1"⟩ (.str "Basic_A2")
      ⟨"net|$|sub", "/net/net/subnets/sub", some "zone-2"⟩ none
      ⟨"kp1", "ssh-rsa AAA", none⟩ none none
      ⟨[], [], [], [], [], [], [], [], [], 0⟩).1,
   by decide,
   (c4_merged_security_group (fun _ => "abc123") "web" "vm"
      ⟨"A", "/nsg/A", [⟨"tcp", 22⟩], []⟩ ⟨"B", "/nsg/B", [⟨"tcp", 80⟩], []⟩ []
      ⟨[], [], [⟨"A", "/nsg/A", [⟨"tcp", 22⟩], []⟩,
        ⟨"B", "/nsg/B", [⟨"tcp", 80⟩], []⟩], [], [], [], [], [], [], 0⟩
      ⟨"img1", "/images/img1"⟩ (.str "Basic_A2")
      ⟨"net|$|sub", "/net/net/subnets/sub", some "zone-2"⟩ none
      ⟨"kp1", "ssh-rsa AAA", none⟩ none none
      ⟨[], [], [], [], [], [], [], [], [], 0⟩).2.2.2 _ (by decide) (by decide)⟩

/-- The `Name` tag of the create tag dictionary is the requested name. -/
theorem tagGet_azureNameTags (name : String) (desc : Option String) :
    tagGet (azureNameTags name desc) "Name" = some name := by
  cases desc <;> rfl

/-- `AzureVolumeService.create` without a snapshot source, computed: one
empty disk named with the fresh suffix is created and returned. -/
theorem azureVolumeCreate_none_run (σ : Nat → String) (name : String)
    (size : Option Nat) (desc : Option String) (st : AzureState)
    (hf : (name ++ "-" ++ σ st.fresh) ∉ st.diskFaults) :
    azureVolumeCreate σ name size none none desc st =
      (.ok ⟨name ++ "-" ++ σ st.fresh,
            azMkDiskResourceId (name ++ "-" ++ σ st.fresh),
            azureNameTags name desc, size⟩,
       {st with
         fresh := st.fresh + 1
         disks := ⟨name ++ "-" ++ σ st.fresh, azureNameTags name desc, size,
             azureRegionName⟩ ::
           st.disks.filter (fun x => x.name ≠ name ++ "-" ++ σ st.fresh)},
       [.createEmptyDisk (name ++ "-" ++ σ st.fresh)]) := by
  unfold azureVolumeCreate azureResolveSnapshotArg azFreshSuffix
    azClientCreateEmptyDisk azClientGetDisk azWrapDisk
  simp [azBind_run, azPure_run, hf]

/-- `AzureSnapshotService.create` with a volume object, computed: one
snapshot named with the fresh suffix is recorded and returned. -/
theorem azureSnapshotCreate_obj_run (σ : Nat → String) (name : String)
    (v : AzVolume) (desc : Option String) (st : AzureState) :
    azureSnapshotCreate σ name (.obj v) desc st =
      (.ok ⟨name ++ "-" ++ σ st.fresh,
            azMkSnapResourceId (name ++ "-" ++ σ st.fresh),
            azureNameTags name desc, v.size⟩,
       {st with
         fresh := st.fresh + 1
         snapshots := ⟨name ++ "-" ++ σ st.fresh, azureNameTags name desc,
             v.size⟩ ::
           st.snapshots.filter (fun x => x.name ≠ name ++ "-" ++ σ st.fresh)},
       [.createSnapshot (name ++ "-" ++ σ st.fresh)]) := by
  unfold azureSnapshotCreate azureResolveVolumeArg azFreshSuffix azModify
    azEmit azClientGetSnapshot azWrapSnap
  simp [azBind_run, azPure_run]

/-- C10: for Azure volume, snapshot and instance creation the provider-native
name is never the requested name but the requested name, a dash and the
six-character random suffix; the requested name lives in the `Name` tag; a
subsequent get by the requested name finds nothing, while the tag-based find
returns the created resource. -/
theorem c10_native_names (σ : Nat → String) (name : String)
    (size : Option Nat) (desc : Option String) (v0 : AzVolume)
    (imgO : AzImage) (it : StrOr String) (sn : AzSubnet)
    (z : Option (StrOr String)) (kpO : AzKeyPair) (sgs : Option AzSGArg)
    (ud : Option String) (cfg : Option AzLaunchConfig) (st : AzureState)
    (h6 : (σ st.fresh).length = 6)
    (hfault : (name ++ "-" ++ σ st.fresh) ∉ st.diskFaults)
    (hfault2 : name ∉ st.diskFaults)
    (hnodisk : ∀ d ∈ st.disks, ¬(d.name = name))
    (hnosnap : ∀ s ∈ st.snapshots, ¬(s.name = name)) :
    (name ++ "-" ++ σ st.fresh ≠ name) ∧
    (∃ v st2,
      azureVolumeCreate σ name size none none desc st =
        (.ok v, st2, [.createEmptyDisk (name ++ "-" ++ σ st.fresh)]) ∧
      v.id = name ++ "-" ++ σ st.fresh ∧
      tagGet v.tags "Name" = some name ∧
      (azureVolumeGet name st2).1 = .ok none ∧
      ∃ out, (azureVolumeFind name st2).1 = .ok out ∧ v ∈ out) ∧
    (∃ s st3,
      azureSnapshotCreate σ name (.obj v0) desc st =
        (.ok s, st3, [.createSnapshot (name ++ "-" ++ σ st.fresh)]) ∧
      s.id = name ++ "-" ++ σ st.fresh ∧
      tagGet s.tags "Name" = some name ∧
      (azureSnapshotGet name st3).1 = .ok none) ∧
    (∀ e ∈ (azureInstanceCreate σ name (.obj imgO) it (some (.obj sn)) z
        (some (.obj kpO)) sgs ud cfg st).2.2,
      azCallIsCreateVm e = true →
        ∃ loc, e = .createVm (name ++ "-" ++ σ st.fresh) loc (some name)) := by
  have hne : name ++ "-" ++ σ st.fresh ≠ name := by
    intro h
    have h2 := congrArg String.length h
    rw [String.length_append, String.length_append] at h2
    have h3 : ("-" : String).length = 1 := rfl
    rw [h3, h6] at h2
    omega
  refine ⟨hne, ?_, ?_, ?_⟩
  · refine ⟨_, _, azureVolumeCreate_none_run σ name size desc st hfault,
      rfl, tagGet_azureNameTags name desc, ?_, ?_⟩
    · rw [azureVolumeGet_run]
      simp only [hfault2, if_neg, reduceIte]
      rw [List.find?_cons_of_neg _ (by simp [hne]),
        List.find?_eq_none.mpr (fun d hd => by
          simp only [decide_eq_true_eq]
          exact hnodisk d (List.mem_of_mem_filter hd))]
      rfl
    · refine ⟨_, rfl, ?_⟩
      show _ ∈ (azureFilterByName AzDisk.tags name _).map azWrapDisk
      unfold azureFilterByName
      rw [List.filter_cons]
      simp [tagGet_azureNameTags, azWrapDisk]
  · refine ⟨_, _, azureSnapshotCreate_obj_run σ name v0 desc st,
      rfl, tagGet_azureNameTags name desc, ?_⟩
    rw [azureSnapshotGet_run]
    simp only
    rw [List.find?_cons_of_neg _ (by simp [hne]),
      List.find?_eq_none.mpr (fun s hs => by
        simp only [decide_eq_true_eq]
        exact hnosnap s (List.mem_of_mem_filter hs))]
    rfl
  · rw [azureInstanceCreate_obj_run]
    refine azBind_events_ok _ _ _ _ ?_ ?_
    · intro e he hv
      have h2 := azureResolveLaunchOptions_events _ _ _ _ _ e he
      rw [h2.1] at hv
      cases hv
    · intro t st1 tr1 hrun
      intro e he hv
      have h2 := azureInstanceCreateTail_events σ name _ (some kpO)
        (some imgO) _ t.1 t.2.1 t.2.2 ud cfg st1 e he
      exact ⟨t.2.1.getD azureRegionName, h2.1 hv⟩

/-- C10 witness at a concrete input: creating volume `vm` names the disk
`vm-abc123`, tags it `Name = vm`, a get by `vm` finds nothing and the
tag-based find returns the created volume. -/
theorem c10_witness :
    ("vm" ++ "-" ++ "abc123" ≠ "vm") ∧
    (∃ v st2,
      azureVolumeCreate (fun _ => "abc123") "vm" (some 10) none none none
          ⟨[], [], [], [], [], [], [], [], [], 0⟩ =
        (.ok v, st2, [.createEmptyDisk ("vm" ++ "-" ++ "abc123")]) ∧
      v.id = "vm" ++ "-" ++ "abc123" ∧
      tagGet v.tags "Name" = some "vm" ∧
      (azureVolumeGet "vm" st2).1 = .ok none ∧
      ∃ out, (azureVolumeFind "vm" st2).1 = .ok out ∧ v ∈ out) :=
  ⟨(c10_native_names (fun _ => "abc123") "vm" (some 10) none
      ⟨"vol0", "/disks/vol0", [], some 10⟩ ⟨"img1", "/images/img1"⟩
      (.str "Basic_A2") ⟨"net|$|sub", "/net/net/subnets/sub", some "zone-2"⟩
      none ⟨"kp1", "ssh-rsa AAA", none⟩ none none none
      ⟨[], [], [], [], [], [], [], [], [], 0⟩ (by decide) (by decide)
      (by decide) (by decide) (by decide)).1,
   (c10_native_names (fun _ => "abc123") "vm" (some 10) none
      ⟨"vol0", "/disks/vol0", [], some 10⟩ ⟨"img1", "/images/img1"⟩
      (.str "Basic_A2") ⟨"net|$|sub", "/net/net/subnets/sub", some "zone-2"⟩
      none ⟨"kp1", "ssh-rsa AAA", none⟩ none none none
      ⟨[], [], [], [], [], [], [], [], [], 0⟩ (by decide) (by decide)
      (by decide) (by decide) (by decide)).2.1⟩

/-- A pure block device steps to success with the backend untouched and no
call traced. -/
theorem azureBDMStep_pure_run (σ : Nat → String) (nm : String)
    (z : Option String) (acc : AzBDMAcc) (d : AzBlockDevice)
    (st : AzureState) (hd : azBDMPureDevice d = true) :
    ∃ acc2, azureBDMStep σ nm z acc d st = (.ok acc2, st, []) := by
  by_cases hv : d.isVolume = true
  · by_cases hr : d.isRoot = true
    · refine ⟨{acc with rootDiskSize := d.size}, ?_⟩
      unfold azureBDMStep
      simp [hv, hr, azPure_run]
    · cases hs : d.source with
      | machineImage m =>
        refine ⟨{acc with volumesCount := acc.volumesCount + 1}, ?_⟩
        unfold azureBDMStep
        simp [hv, hr, hs, azBind_run, azPure_run]
      | snapshot s => simp [azBDMPureDevice, hv, hs, hr] at hd
      | volume v => simp [azBDMPureDevice, hv, hs, hr] at hd
      | blank => simp [azBDMPureDevice, hv, hs, hr] at hd
  · refine ⟨acc, ?_⟩
    unfold azureBDMStep
    simp [hv, azPure_run]

/-- A blank non-root volume device with no zone steps to the
invalid-configuration error with the backend untouched and no call
traced. -/
theorem azureBDMStep_blank_noZone_run (σ : Nat → String) (nm : String)
    (acc : AzBDMAcc) (d : AzBlockDevice) (st : AzureState)
    (hv : d.isVolume = true) (hr : d.isRoot = false)
    (hs : d.source = .blank) :
    azureBDMStep σ nm none acc d st = (.error azBlankZoneErr, st, []) := by
  unfold azureBDMStep
  simp [hv, hr, hs, azThrow, azBind_run, azBlankZoneErr]

/-- Block-device processing with no zone fails with the
invalid-configuration error, the backend untouched and zero provider calls,
whenever some blank non-root volume device is preceded only by pure
devices. -/
theorem azureProcessBDM_blank_noZone_run (σ : Nat → String)
    (cfg : AzLaunchConfig) (nm : String) (st : AzureState)
    (pre post : List AzBlockDevice) (d : AzBlockDevice)
    (hcfg : cfg.blockDevices = pre ++ d :: post)
    (hpre : ∀ x ∈ pre, azBDMPureDevice x = true)
    (hv : d.isVolume = true) (hr : d.isRoot = false)
    (hs : d.source = .blank) :
    azureProcessBDM σ cfg nm none st = (.error azBlankZoneErr, st, []) := by
  unfold azureProcessBDM
  rw [azBind_run, hcfg]
  have hfold : ∀ (pre2 : List AzBlockDevice) (acc : AzBDMAcc),
      (∀ x ∈ pre2, azBDMPureDevice x = true) →
      List.foldlM (azureBDMStep σ nm none) acc (pre2 ++ d :: post) st =
        (.error azBlankZoneErr, st, []) := by
    intro pre2
    induction pre2 with
    | nil =>
      intro acc _
      show (azureBDMStep σ nm none acc d >>=
        fun a => List.foldlM (azureBDMStep σ nm none) a post) st = _
      rw [azBind_run, azureBDMStep_blank_noZone_run σ nm acc d st hv hr hs]
    | cons x xs ih =>
      intro acc hall
      show (azureBDMStep σ nm none acc x >>=
        fun a => List.foldlM (azureBDMStep σ nm none) a (xs ++ d :: post)) st = _
      obtain ⟨acc2, hstep⟩ :=
        azureBDMStep_pure_run σ nm none acc x st (hall x (by simp))
      rw [azBind_run, hstep]
      simp only
      rw [ih acc2 (fun y hy => hall y (by simp [hy]))]
      rfl
  rw [hfold pre ⟨[], 0, none⟩ hpre]

/-- When block-device processing fails, the create tail fails with the same
error, state and trace: the network interface and virtual machine are never
attempted. -/
theorem azureInstanceCreateTail_bdm_error (σ : Nat → String)
    (name iname : String) (kpR : Option AzKeyPair) (imgR : Option AzImage)
    (isz rid : String) (zid : Option String) (gid : Option String)
    (ud : Option String) (cfg : AzLaunchConfig) (st st2 : AzureState)
    (e : Err) (tr : List AzCall)
    (h : azureProcessBDM σ cfg name zid st = (.error e, st2, tr)) :
    azureInstanceCreateTail σ name iname kpR imgR isz rid zid gid ud
      (some cfg) st = (.error e, st2, tr) := by
  unfold azureInstanceCreateTail
  simp only [azBind_run]
  rw [h]

/-- C3 counterexample at a concrete input: a volume-sourced device precedes
the blank one, so the create raises the invalid-configuration error but a
disk provider mutation call (the tag update of the attached volume) was
already made — the trace is not empty. -/
theorem c3_counterexample :
    ((azureInstanceCreate (fun _ => "abc123") "vm"
        (.obj ⟨"img1", "/images/img1"⟩) (.str "Basic_A2")
        (some (.obj ⟨"net|$|sub", "/net/net/subnets/sub", none⟩)) none
        (some (.obj ⟨"kp1", "ssh-rsa AAA", none⟩)) none none
        (some ⟨[⟨true, false, .volume ⟨"vol1", "/disks/vol1", [], none⟩,
                 none, none⟩,
               ⟨true, false, .blank, none, none⟩]⟩)
        ⟨[], [], [], [⟨"vol1", [], none, "eastus"⟩], [], [], [], [], [],
         0⟩).1 = .error azBlankZoneErr) ∧
    (azureInstanceCreate (fun _ => "abc123") "vm"
        (.obj ⟨"img1", "/images/img1"⟩) (.str "Basic_A2")
        (some (.obj ⟨"net|$|sub", "/net/net/subnets/sub", none⟩)) none
        (some (.obj ⟨"kp1", "ssh-rsa AAA", none⟩)) none none
        (some ⟨[⟨true, false, .volume ⟨"vol1", "/disks/vol1", [], none⟩,
                 none, none⟩,
               ⟨true, false, .blank, none, none⟩]⟩)
        ⟨[], [], [], [⟨"vol1", [], none, "eastus"⟩], [], [], [], [], [],
         0⟩).2.2 = [.updateDiskTags "vol1"] := by
  constructor
  · decide
  · decide

/-- C3 (amended): with no resolvable zone, a non-root sourceless (blank)
block device fails the creation with the invalid-configuration error; when
every device before it is pure (non-volume, root, or machine-image-sourced),
the failure comes with zero provider mutation calls: block-device processing
leaves the backend untouched and traces nothing, and the whole instance
create errors before any network-interface or disk call, with an empty
trace (only the name-suffix counter has advanced). -/
theorem c3_blank_volume_no_zone_fail_fast (σ : Nat → String) (name : String)
    (imgO : AzImage) (it : StrOr String) (sn : AzSubnet)
    (z : Option (StrOr String)) (kpO : AzKeyPair) (ud : Option String)
    (cfg : AzLaunchConfig) (st : AzureState)
    (pre post : List AzBlockDevice) (d : AzBlockDevice)
    (hz : sn.zoneId = none)
    (hcfg : cfg.blockDevices = pre ++ d :: post)
    (hpre : ∀ x ∈ pre, azBDMPureDevice x = true)
    (hv : d.isVolume = true) (hr : d.isRoot = false)
    (hs : d.source = .blank) :
    (azureProcessBDM σ cfg name none st = (.error azBlankZoneErr, st, [])) ∧
    (azureInstanceCreate σ name (.obj imgO) it (some (.obj sn)) z
        (some (.obj kpO)) none ud (some cfg) st =
      (.error azBlankZoneErr, {st with fresh := st.fresh + 1}, [])) := by
  have hbdm := azureProcessBDM_blank_noZone_run σ cfg name
  refine ⟨hbdm st pre post d hcfg hpre hv hr hs, ?_⟩
  rw [azureInstanceCreate_obj_run, azBind_run,
    azureResolveLaunchOptions_none_run]
  simp only
  rw [hz]
  rw [azureInstanceCreateTail_bdm_error σ name _ (some kpO) (some imgO) _
    sn.resourceId none none ud cfg _ _ azBlankZoneErr []
    (hbdm _ pre post d hcfg hpre hv hr hs)]
  rfl

/-- C3 witness at a concrete input: a root device precedes the blank one, so
the create fails with the invalid-configuration error, an untouched backend
apart from the suffix counter, and an empty trace. -/
theorem c3_witness :
    ((⟨[⟨true, true, .blank, some 30, none⟩,
        ⟨true, false, .blank, none, none⟩]⟩ : AzLaunchConfig).blockDevices =
      [⟨true, true, .blank, some 30, none⟩] ++
        (⟨true, false, .blank, none, none⟩ : AzBlockDevice) :: []) ∧
    azureInstanceCreate (fun _ => "abc123") "vm"
        (.obj ⟨"img1", "/images/img1"⟩) (.str "Basic_A2")
        (some (.obj ⟨"net|$|sub", "/net/net/subnets/sub", none⟩)) none
        (some (.obj ⟨"kp1", "ssh-rsa AAA", none⟩)) none none
        (some ⟨[⟨true, true, .blank, some 30, none⟩,
                ⟨true, false, .blank, none, none⟩]⟩)
        ⟨[], [], [], [], [], [], [], [], [], 0⟩ =
      (.error azBlankZoneErr, ⟨[], [], [], [], [], [], [], [], [], 1⟩, []) :=
  ⟨rfl,
   (c3_blank_volume_no_zone_fail_fast (fun _ => "abc123") "vm"
     ⟨"img1", "/images/img1"⟩ (.str "Basic_A2")
     ⟨"net|$|sub", "/net/net/subnets/sub", none⟩ none
     ⟨"kp1", "ssh-rsa AAA", none⟩ none
     ⟨[⟨true, true, .blank, some 30, none⟩,
       ⟨true, false, .blank, none, none⟩]⟩
     ⟨[], [], [], [], [], [], [], [], [], 0⟩
     [⟨true, true, .blank, some 30, none⟩] []
     ⟨true, false, .blank, none, none⟩ rfl rfl (by decide) rfl rfl rfl).2⟩

end CloudBridge
